import Mathlib

/-!
# cbullet: the flat C binding over the rigid-body engine

A shallow embedding of `src/external/src/cbullet.cpp`.  Scalars (`float`) are an
arbitrary type `α`; where the code compares or computes with them `α` is a
linearly ordered commutative ring, so rounding and NaN are outside the model.
Shape, body and transform values are passed by value: a handle is `Option` of
the object it points to (`none` is the null handle), a function whose `assert`
fails returns `none` (the debug build), and out-arrays are returned.  Worlds and
their subsystem objects live on an explicit heap that records every `new` and
`delete`.  The wrapped engine is not part of the sources: its types and the few
methods the binding relies on are modelled, each marked as such.
-/

namespace CBullet

/-! ## Exposed array types (`cbullet.h`) -/

/-- Exposed 3-vector `CbtVector3`, a `float[3]`. -/
abbrev CbtVector3 (α : Type) := Fin 3 → α

/-- Exposed transform `CbtVector3 transform[4]`: rows 0-2 are the basis rows,
row 3 is the translation. -/
abbrev CbtTransform (α : Type) := Fin 4 → Fin 3 → α

/-- Modelled from the spec: the two-valued integer encoding of booleans
(`CBT_TRUE` of the absent header `cbullet.h`). -/
def CBT_TRUE : Int := 1

/-- Modelled from the spec: the two-valued integer encoding of booleans
(`CBT_FALSE` of the absent header `cbullet.h`). -/
def CBT_FALSE : Int := 0

/-- Modelled from the spec: the axis enumerant X of the absent header
`cbullet.h`, first of the three consecutive values the constructors range-check
with `axis >= CBT_AXIS_X && axis <= CBT_AXIS_Z`. -/
def CBT_AXIS_X : Int := 0

/-- Modelled from the spec: the axis enumerant Y of the absent header `cbullet.h`. -/
def CBT_AXIS_Y : Int := 1

/-- Modelled from the spec: the axis enumerant Z of the absent header `cbullet.h`. -/
def CBT_AXIS_Z : Int := 2

/-! ## The engine's value types -/

/-- Modelled from the spec: the engine's native vector `btVector3` (its
declaration is in the wrapped engine, not in the sources), with the accessors
`x()`, `y()`, `z()` as fields. -/
structure btVector3 (α : Type) where
  x : α
  y : α
  z : α
deriving DecidableEq

/-- Component `c` of a native vector. -/
def btVector3.get {α : Type} (v : btVector3 α) (c : Fin 3) : α :=
  ![v.x, v.y, v.z] c

/-- Modelled from the spec: the engine's native basis `btMatrix3x3`, stored as
its three rows `m_el[0..2]`; native element `(r, c)` is component `c` of row `r`. -/
structure btMatrix3x3 (α : Type) where
  m_el : Fin 3 → btVector3 α
deriving DecidableEq

/-- The engine constructor `btMatrix3x3(v0, v1, v2)`: the arguments are the rows. -/
def btMatrix3x3.ofRows {α : Type} (v0 v1 v2 : btVector3 α) : btMatrix3x3 α :=
  ⟨![v0, v1, v2]⟩

/-- The engine accessor `getRow(i)`. -/
def btMatrix3x3.getRow {α : Type} (m : btMatrix3x3 α) (i : Fin 3) : btVector3 α :=
  m.m_el i

/-- Native basis element `(r, c)`. -/
def btMatrix3x3.elem {α : Type} (m : btMatrix3x3 α) (r c : Fin 3) : α :=
  (m.getRow r).get c

/-- Modelled from the spec: the engine's native transform `btTransform`, a basis
and an origin, with `getBasis()` and `getOrigin()` as fields. -/
structure btTransform (α : Type) where
  m_basis : btMatrix3x3 α
  m_origin : btVector3 α
deriving DecidableEq

/-- The engine accessor `getBasis()`. -/
def btTransform.getBasis {α : Type} (t : btTransform α) : btMatrix3x3 α := t.m_basis

/-- The engine accessor `getOrigin()`. -/
def btTransform.getOrigin {α : Type} (t : btTransform α) : btVector3 α := t.m_origin

/-! ## Shapes -/

/-- Modelled from the spec: the engine's collision-shape classes the shape
factory instantiates, each with the constructor arguments it is given. -/
inductive ShapeKind (α : Type) where
  | btBoxShape (halfExtents : btVector3 α)
  | btBox2dShape (halfExtents : btVector3 α)
  | btSphereShape (radius : α)
  | btStaticPlaneShape (normal : btVector3 α) (distance : α)
  | btCapsuleShapeX (radius height : α)
  | btCapsuleShape (radius height : α)
  | btCapsuleShapeZ (radius height : α)
  | btCylinderShapeX (halfExtents : btVector3 α)
  | btCylinderShape (halfExtents : btVector3 α)
  | btCylinderShapeZ (halfExtents : btVector3 α)
  | btConeShapeX (radius height : α)
  | btConeShape (radius height : α)
  | btConeShapeZ (radius height : α)
deriving DecidableEq

/-- Modelled from the spec: an engine collision shape `btCollisionShape`: the
variant it was constructed as, one user pointer and two user-index slots (the
engine starts them at null and -1). -/
structure btCollisionShape (α : Type) where
  kind : ShapeKind α
  m_userPointer : Nat := 0
  m_userIndex : Int := -1
  m_userIndex2 : Int := -1
deriving DecidableEq

/-- A shape handle: `none` is the null handle. -/
abbrev CbtShapeHandle (α : Type) := Option (btCollisionShape α)

section ShapeFactory

variable {α : Type} [LinearOrderedCommRing α]

/-- Embeds `cbtShapeCreateBox`: the three half-extents must be positive. -/
def cbtShapeCreateBox (half_extents : CbtVector3 α) : CbtShapeHandle α :=
  if 0 < half_extents 0 ∧ 0 < half_extents 1 ∧ 0 < half_extents 2 then
    some ⟨.btBoxShape ⟨half_extents 0, half_extents 1, half_extents 2⟩, 0, -1, -1⟩
  else none

/-- Embeds `cbtShapeCreateBox2d`: both half-extents must be positive; the third
component given to the engine is `0.0`. -/
def cbtShapeCreateBox2d (x_half_extent y_half_extent : α) : CbtShapeHandle α :=
  if 0 < x_half_extent ∧ 0 < y_half_extent then
    some ⟨.btBox2dShape ⟨x_half_extent, y_half_extent, 0⟩, 0, -1, -1⟩
  else none

/-- Embeds `cbtShapeCreateSphere`: the radius must be positive. -/
def cbtShapeCreateSphere (radius : α) : CbtShapeHandle α :=
  if 0 < radius then some ⟨.btSphereShape radius, 0, -1, -1⟩ else none

/-- Embeds `cbtShapeCreatePlane`: no assertion. -/
def cbtShapeCreatePlane (normal : CbtVector3 α) (distance : α) : CbtShapeHandle α :=
  some ⟨.btStaticPlaneShape ⟨normal 0, normal 1, normal 2⟩ distance, 0, -1, -1⟩

/-- Embeds `cbtShapeCreateCapsule`: asserts positive radius and height and an
axis within `CBT_AXIS_X .. CBT_AXIS_Z`, then picks the engine class by axis. -/
def cbtShapeCreateCapsule (radius height : α) (axis : Int) : CbtShapeHandle α :=
  if 0 < radius ∧ 0 < height ∧ CBT_AXIS_X ≤ axis ∧ axis ≤ CBT_AXIS_Z then
    if axis = CBT_AXIS_X then
      some ⟨.btCapsuleShapeX radius height, 0, -1, -1⟩
    else if axis = CBT_AXIS_Y then
      some ⟨.btCapsuleShape radius height, 0, -1, -1⟩
    else
      some ⟨.btCapsuleShapeZ radius height, 0, -1, -1⟩
  else none

/-- Embeds `cbtShapeCreateCylinder`: asserts the three half-extents positive (the
assertion does not mention the axis), then picks the engine class by axis. -/
def cbtShapeCreateCylinder (half_extents : CbtVector3 α) (axis : Int) : CbtShapeHandle α :=
  if 0 < half_extents 0 ∧ 0 < half_extents 1 ∧ 0 < half_extents 2 then
    if axis = CBT_AXIS_X then
      some ⟨.btCylinderShapeX ⟨half_extents 0, half_extents 1, half_extents 2⟩, 0, -1, -1⟩
    else if axis = CBT_AXIS_Y then
      some ⟨.btCylinderShape ⟨half_extents 0, half_extents 1, half_extents 2⟩, 0, -1, -1⟩
    else
      some ⟨.btCylinderShapeZ ⟨half_extents 0, half_extents 1, half_extents 2⟩, 0, -1, -1⟩
  else none

/-- Embeds `cbtShapeCreateCone`: asserts positive radius and height and an axis
within `CBT_AXIS_X .. CBT_AXIS_Z`, then picks the engine class by axis. -/
def cbtShapeCreateCone (radius height : α) (axis : Int) : CbtShapeHandle α :=
  if 0 < radius ∧ 0 < height ∧ CBT_AXIS_X ≤ axis ∧ axis ≤ CBT_AXIS_Z then
    if axis = CBT_AXIS_X then
      some ⟨.btConeShapeX radius height, 0, -1, -1⟩
    else if axis = CBT_AXIS_Y then
      some ⟨.btConeShape radius height, 0, -1, -1⟩
    else
      some ⟨.btConeShapeZ radius height, 0, -1, -1⟩
  else none

/-- Embeds `cbtShapeCalculateLocalInertia`: asserts a non-null shape and a
positive mass, then writes the three components the engine's virtual
`calculateLocalInertia` (a parameter: it is the wrapped engine's) returns. -/
def cbtShapeCalculateLocalInertia
    (calculateLocalInertia : btCollisionShape α → α → btVector3 α)
    (handle : CbtShapeHandle α) (mass : α) : Option (CbtVector3 α) :=
  match handle with
  | none => none
  | some shape =>
    if 0 < mass then
      let ine := calculateLocalInertia shape mass
      some ![ine.x, ine.y, ine.z]
    else none

end ShapeFactory

/-! ## Bodies -/

/-- Modelled from the spec: the engine's `btDefaultMotionState`, the object
holding a body's rendering-facing world transform; the wrapper constructs it
from the start transform alone (no centre-of-mass offset). -/
structure btDefaultMotionState (α : Type) where
  m_graphicsWorldTrans : btTransform α
deriving DecidableEq

/-- The engine method `getWorldTransform`: hands out the held transform. -/
def btDefaultMotionState.getWorldTransform {α : Type} (ms : btDefaultMotionState α) :
    btTransform α :=
  ms.m_graphicsWorldTrans

/-- Modelled from the spec: the engine flag `CF_STATIC_OBJECT` of a collision object. -/
def CF_STATIC_OBJECT : Nat := 1

/-- Modelled from the spec: the engine flag `CF_KINEMATIC_OBJECT` of a collision object. -/
def CF_KINEMATIC_OBJECT : Nat := 2

/-- Modelled from the spec: the state of an engine rigid body `btRigidBody` that
the binding reads or writes: the centre-of-mass (world) transform, the
interpolation transform, the paired motion state, the shape, the collision
flags, the mass and local inertia it was constructed with, the user pointer and
the three user-index slots. -/
structure btRigidBody (α : Type) where
  m_worldTransform : btTransform α
  m_interpolationWorldTransform : btTransform α
  m_optionalMotionState : Option (btDefaultMotionState α)
  m_collisionShape : btCollisionShape α
  m_collisionFlags : Nat
  m_mass : α
  m_localInertia : btVector3 α
  m_userObjectPointer : Nat
  m_userIndex : Int
  m_userIndex2 : Int
  m_userIndex3 : Int
deriving DecidableEq

/-- A body handle: `none` is the null handle. -/
abbrev CbtBodyHandle (α : Type) := Option (btRigidBody α)

/-- The engine predicate `isStaticObject`. -/
def btRigidBody.isStaticObject {α : Type} (body : btRigidBody α) : Bool :=
  body.m_collisionFlags &&& CF_STATIC_OBJECT != 0

/-- The engine predicate `isKinematicObject`. -/
def btRigidBody.isKinematicObject {α : Type} (body : btRigidBody α) : Bool :=
  body.m_collisionFlags &&& CF_KINEMATIC_OBJECT != 0

/-- The engine accessor `getCenterOfMassTransform`. -/
def btRigidBody.getCenterOfMassTransform {α : Type} (body : btRigidBody α) : btTransform α :=
  body.m_worldTransform

/-- The engine accessor `getMotionState`. -/
def btRigidBody.getMotionState {α : Type} (body : btRigidBody α) :
    Option (btDefaultMotionState α) :=
  body.m_optionalMotionState

/-- Modelled from the spec: the engine method `setCenterOfMassTransform`: the
world transform becomes `xform`; the interpolation transform follows it unless
the body is kinematic. -/
def btRigidBody.setCenterOfMassTransform {α : Type} (body : btRigidBody α)
    (xform : btTransform α) : btRigidBody α :=
  { body with
    m_interpolationWorldTransform :=
      if body.isKinematicObject then body.m_worldTransform else xform
    m_worldTransform := xform }

/-- Modelled from the spec: the engine record `btRigidBodyConstructionInfo` as
the binding fills it: mass, motion state, shape, local inertia. -/
structure btRigidBodyConstructionInfo (α : Type) where
  m_mass : α
  m_motionState : Option (btDefaultMotionState α)
  m_collisionShape : btCollisionShape α
  m_localInertia : btVector3 α
deriving DecidableEq


section BodyCreate

variable {α : Type} [LinearOrderedCommRing α]

/-- The engine's `btTransform::getIdentity()`. -/
def btTransform.getIdentity : btTransform α :=
  ⟨btMatrix3x3.ofRows ⟨1, 0, 0⟩ ⟨0, 1, 0⟩ ⟨0, 0, 1⟩, ⟨0, 0, 0⟩⟩

/-- Modelled from the spec: the engine constructor `btRigidBody(info)`.  The
world transform is seeded from the motion state when there is one (identity
otherwise) and the interpolation transform copies it; a collision object starts
with `CF_STATIC_OBJECT` set and `setMassProps` keeps the flag for mass 0 and
clears it otherwise; the body references the shape, mass and local inertia of
`info`; user pointer and user indices start at null and -1. -/
def btRigidBody.ofConstructionInfo (info : btRigidBodyConstructionInfo α) : btRigidBody α :=
  let start : btTransform α :=
    match info.m_motionState with
    | some ms => ms.getWorldTransform
    | none => btTransform.getIdentity
  { m_worldTransform := start
    m_interpolationWorldTransform := start
    m_optionalMotionState := info.m_motionState
    m_collisionShape := info.m_collisionShape
    m_collisionFlags :=
      if info.m_mass = 0 then CF_STATIC_OBJECT ||| CF_STATIC_OBJECT
      else CF_STATIC_OBJECT &&& (0xFFFFFFFF ^^^ CF_STATIC_OBJECT)
    m_mass := info.m_mass
    m_localInertia := info.m_localInertia
    m_userObjectPointer := 0
    m_userIndex := -1
    m_userIndex2 := -1
    m_userIndex3 := -1 }

/-- The construction info `cbtBodyCreate` fills before it calls the engine
constructor: `none` when the assertion `shape && transform && mass >= 0.0`
fails (the `transform` array is never null here).  The shape's inertia
computation `calculateLocalInertia` is the engine's virtual method, a parameter;
it is consulted only when `mass != 0.0`.  The motion state is seeded with the
transposed basis and row 3 as origin. -/
def cbtBodyCreateInfo (calculateLocalInertia : btCollisionShape α → α → btVector3 α)
    (mass : α) (transform : CbtTransform α) (shape_handle : CbtShapeHandle α) :
    Option (btRigidBodyConstructionInfo α) :=
  match shape_handle with
  | none => none
  | some shape =>
    if 0 ≤ mass then
      let is_dynamic : Bool := mass != 0
      let local_inertia : btVector3 α :=
        if is_dynamic then calculateLocalInertia shape mass else ⟨0, 0, 0⟩
      let motion_state : btDefaultMotionState α :=
        ⟨⟨btMatrix3x3.ofRows
            ⟨transform 0 0, transform 1 0, transform 2 0⟩
            ⟨transform 0 1, transform 1 1, transform 2 1⟩
            ⟨transform 0 2, transform 1 2, transform 2 2⟩,
          ⟨transform 3 0, transform 3 1, transform 3 2⟩⟩⟩
      some ⟨mass, some motion_state, shape, local_inertia⟩
    else none

/-- Embeds `cbtBodyCreate`: the engine constructor applied to the construction
info; `none` when the assertion fails. -/
def cbtBodyCreate (calculateLocalInertia : btCollisionShape α → α → btVector3 α)
    (mass : α) (transform : CbtTransform α) (shape_handle : CbtShapeHandle α) :
    CbtBodyHandle α :=
  (cbtBodyCreateInfo calculateLocalInertia mass transform shape_handle).map
    btRigidBody.ofConstructionInfo

end BodyCreate

section BodyAccessors

variable {α : Type}

/-- Embeds `cbtBodyIsStatic`. -/
def cbtBodyIsStatic (handle : CbtBodyHandle α) : Option Int :=
  match handle with
  | none => none
  | some body => some (if body.isStaticObject then CBT_TRUE else CBT_FALSE)

/-- Embeds `cbtBodySetCenterOfMassTransform`: builds the native transform with
the transposed basis and hands it to the engine setter; the result is the body
afterwards, `none` when `assert(body)` fails. -/
def cbtBodySetCenterOfMassTransform (handle : CbtBodyHandle α) (transform : CbtTransform α) :
    Option (btRigidBody α) :=
  match handle with
  | none => none
  | some body =>
    some (body.setCenterOfMassTransform
      ⟨btMatrix3x3.ofRows
          ⟨transform 0 0, transform 1 0, transform 2 0⟩
          ⟨transform 0 1, transform 1 1, transform 2 1⟩
          ⟨transform 0 2, transform 1 2, transform 2 2⟩,
        ⟨transform 3 0, transform 3 1, transform 3 2⟩⟩)

/-- Embeds `cbtBodyGetCenterOfMassTransform`: the array written into
`transform`, `none` when the assertion fails (the out-array is never null here). -/
def cbtBodyGetCenterOfMassTransform (handle : CbtBodyHandle α) : Option (CbtTransform α) :=
  match handle with
  | none => none
  | some body =>
    let trans := body.getCenterOfMassTransform
    let basis := trans.getBasis
    let origin := trans.getOrigin
    some ![![(basis.getRow 0).x, (basis.getRow 1).x, (basis.getRow 2).x],
           ![(basis.getRow 0).y, (basis.getRow 1).y, (basis.getRow 2).y],
           ![(basis.getRow 0).z, (basis.getRow 1).z, (basis.getRow 2).z],
           ![origin.x, origin.y, origin.z]]

/-- Embeds `cbtBodyGetCenterOfMassPosition`: the vector written into `position`. -/
def cbtBodyGetCenterOfMassPosition (handle : CbtBodyHandle α) : Option (CbtVector3 α) :=
  match handle with
  | none => none
  | some body =>
    let origin := body.getCenterOfMassTransform.getOrigin
    some ![origin.x, origin.y, origin.z]

/-- Embeds `cbtBodyGetGraphicsWorldTransform`: reads the motion state and writes
native row `r` into exposed row `r`; `none` when the body or its motion state is
null. -/
def cbtBodyGetGraphicsWorldTransform (handle : CbtBodyHandle α) : Option (CbtTransform α) :=
  match handle with
  | none => none
  | some body =>
    match body.getMotionState with
    | none => none
    | some ms =>
      let trans := ms.getWorldTransform
      let basis := trans.getBasis
      let origin := trans.getOrigin
      some ![![(basis.getRow 0).x, (basis.getRow 0).y, (basis.getRow 0).z],
             ![(basis.getRow 1).x, (basis.getRow 1).y, (basis.getRow 1).z],
             ![(basis.getRow 2).x, (basis.getRow 2).y, (basis.getRow 2).z],
             ![origin.x, origin.y, origin.z]]

end BodyAccessors

section Inverse

variable {α : Type} [CommRing α]

/-- The engine's `btVector3::dot`. -/
def btVector3.dot (a b : btVector3 α) : α :=
  a.x * b.x + a.y * b.y + a.z * b.z

/-- The engine's unary minus on `btVector3`. -/
def btVector3.neg (v : btVector3 α) : btVector3 α :=
  ⟨-v.x, -v.y, -v.z⟩

/-- The engine's `btMatrix3x3::transpose`. -/
def btMatrix3x3.transpose (m : btMatrix3x3 α) : btMatrix3x3 α :=
  btMatrix3x3.ofRows
    ⟨(m.getRow 0).x, (m.getRow 1).x, (m.getRow 2).x⟩
    ⟨(m.getRow 0).y, (m.getRow 1).y, (m.getRow 2).y⟩
    ⟨(m.getRow 0).z, (m.getRow 1).z, (m.getRow 2).z⟩

/-- The engine's matrix-times-vector product: one dot product per row. -/
def btMatrix3x3.mulVec (m : btMatrix3x3 α) (v : btVector3 α) : btVector3 α :=
  ⟨(m.getRow 0).dot v, (m.getRow 1).dot v, (m.getRow 2).dot v⟩

/-- Modelled from the spec: the engine's `btTransform::inverse`: the transposed
basis, and as origin minus the transposed basis applied to the origin. -/
def btTransform.inverse (t : btTransform α) : btTransform α :=
  let inv := t.m_basis.transpose
  ⟨inv, inv.mulVec t.m_origin.neg⟩

/-- Embeds `cbtBodyGetInvCenterOfMassTransform`: the same twelve writes as the
centre-of-mass getter, applied to the engine's inverse of the transform. -/
def cbtBodyGetInvCenterOfMassTransform (handle : CbtBodyHandle α) : Option (CbtTransform α) :=
  match handle with
  | none => none
  | some body =>
    let trans := body.getCenterOfMassTransform.inverse
    let basis := trans.getBasis
    let origin := trans.getOrigin
    some ![![(basis.getRow 0).x, (basis.getRow 1).x, (basis.getRow 2).x],
           ![(basis.getRow 0).y, (basis.getRow 1).y, (basis.getRow 2).y],
           ![(basis.getRow 0).z, (basis.getRow 1).z, (basis.getRow 2).z],
           ![origin.x, origin.y, origin.z]]

/-- The array the two centre-of-mass getters write for a native transform:
exposed column `r` is native row `r`, row 3 the origin. -/
def writeTransposed (trans : btTransform α) : CbtTransform α :=
  ![![(trans.getBasis.getRow 0).x, (trans.getBasis.getRow 1).x, (trans.getBasis.getRow 2).x],
    ![(trans.getBasis.getRow 0).y, (trans.getBasis.getRow 1).y, (trans.getBasis.getRow 2).y],
    ![(trans.getBasis.getRow 0).z, (trans.getBasis.getRow 1).z, (trans.getBasis.getRow 2).z],
    ![trans.getOrigin.x, trans.getOrigin.y, trans.getOrigin.z]]

/-- Composition of exposed transforms in the row-vector convention, where a
transform `A` sends a point `p` (a row) to `p * basis A + row 3 of A`:
`composeExposed A B` is `A` followed by `B`. -/
def composeExposed (A B : CbtTransform α) : CbtTransform α :=
  fun i j => A i 0 * B 0 j + A i 1 * B 1 j + A i 2 * B 2 j + (if i = 3 then B 3 j else 0)

/-- The exposed identity transform: identity basis, zero translation. -/
def identityExposed : CbtTransform α :=
  ![![1, 0, 0], ![0, 1, 0], ![0, 0, 1], ![0, 0, 0]]

/-- The native basis has orthonormal rows: the matrix times its transpose is the
identity, entry by entry. -/
def btMatrix3x3.IsOrthonormal (m : btMatrix3x3 α) : Prop :=
  ∀ r s : Fin 3, (m.getRow r).dot (m.getRow s) = if r = s then 1 else 0

instance (m : btMatrix3x3 α) [DecidableEq α] : Decidable m.IsOrthonormal := by
  unfold btMatrix3x3.IsOrthonormal; infer_instance

end Inverse

/-! ## Worlds: objects on the heap -/

/-- The exposed callback record `CbtDebugDrawCallbacks`: three function pointers
and the user-data token, each an address (0 is null). -/
structure CbtDebugDrawCallbacks where
  drawLine : Nat
  drawContactPoint : Nat
  reportErrorWarning : Nat
  user_data : Nat
deriving DecidableEq

/-- The classes of the objects a world is made of. -/
inductive ObjKind where
  | collisionConfiguration
  | dispatcher
  | broadphase
  | solver
  | world
  | debugDrawer
deriving DecidableEq

/-- An object on the heap.  The engine objects carry the pointers the engine
keeps in them (the dispatcher its configuration; the world its dispatcher,
broadphase, solver and debug-drawer); `CbtDebugDraw` is the struct of the
sources with its two members, the debug mode a C `int`. -/
inductive Obj where
  | btDefaultCollisionConfiguration
  | btCollisionDispatcher (collisionConfiguration : Nat)
  | btDbvtBroadphase
  | btSequentialImpulseConstraintSolver
  | btDiscreteDynamicsWorld (dispatcher broadphase solver debugDrawer : Nat)
  | CbtDebugDraw (callbacks : CbtDebugDrawCallbacks) (debug_mode : Int)
deriving DecidableEq

/-- The class of a heap object. -/
def Obj.kind : Obj → ObjKind
  | .btDefaultCollisionConfiguration => .collisionConfiguration
  | .btCollisionDispatcher _ => .dispatcher
  | .btDbvtBroadphase => .broadphase
  | .btSequentialImpulseConstraintSolver => .solver
  | .btDiscreteDynamicsWorld _ _ _ _ => .world
  | .CbtDebugDraw _ _ => .debugDrawer

/-- One allocation (`new`) or release (`delete`) of an object at an address. -/
inductive Event where
  | new (kind : ObjKind) (p : Nat)
  | delete (kind : ObjKind) (p : Nat)
deriving DecidableEq

/-- The heap: the last address handed out, the live objects by address
(address 0 is the null pointer and never live), and the allocations and releases
so far, oldest first. -/
structure Heap where
  next : Nat
  objs : Nat → Option Obj
  trace : List Event

/-- The operator `new`: the object goes to a fresh non-null address. -/
def Heap.new (h : Heap) (o : Obj) : Nat × Heap :=
  let p := h.next + 1
  (p, { next := p, objs := Function.update h.objs p (some o),
        trace := h.trace ++ [Event.new o.kind p] })

/-- The operator `delete`: a no-op on the null pointer, the release of a live
object, and undefined (`none`) on an address that is not live. -/
def Heap.delete (h : Heap) (p : Nat) : Option Heap :=
  if p = 0 then some h
  else
    match h.objs p with
    | none => none
    | some o =>
      some { h with
        objs := Function.update h.objs p none
        trace := h.trace ++ [Event.delete o.kind p] }

/-- The engine accessor `getDebugDrawer` of the world at address `world`. -/
def getDebugDrawer (h : Heap) (world : Nat) : Option Nat :=
  match h.objs world with
  | some (.btDiscreteDynamicsWorld _ _ _ debugDrawer) => some debugDrawer
  | _ => none

/-- The engine accessor `getDispatcher` of the world at address `world`. -/
def getDispatcher (h : Heap) (world : Nat) : Option Nat :=
  match h.objs world with
  | some (.btDiscreteDynamicsWorld dispatcher _ _ _) => some dispatcher
  | _ => none

/-- The engine accessor `getBroadphase` of the world at address `world`. -/
def getBroadphase (h : Heap) (world : Nat) : Option Nat :=
  match h.objs world with
  | some (.btDiscreteDynamicsWorld _ broadphase _ _) => some broadphase
  | _ => none

/-- The engine accessor `getConstraintSolver` of the world at address `world`. -/
def getConstraintSolver (h : Heap) (world : Nat) : Option Nat :=
  match h.objs world with
  | some (.btDiscreteDynamicsWorld _ _ solver _) => some solver
  | _ => none

/-- The engine accessor `getCollisionConfiguration` of the dispatcher at
address `dispatcher`. -/
def getCollisionConfiguration (h : Heap) (dispatcher : Nat) : Option Nat :=
  match h.objs dispatcher with
  | some (.btCollisionDispatcher collisionConfiguration) => some collisionConfiguration
  | _ => none

/-- The engine mutator `setDebugDrawer` of the world at address `world`. -/
def setDebugDrawer (h : Heap) (world debugDrawer : Nat) : Option Heap :=
  match h.objs world with
  | some (.btDiscreteDynamicsWorld dispatcher broadphase solver _) =>
    some { h with
      objs := Function.update h.objs world
        (some (.btDiscreteDynamicsWorld dispatcher broadphase solver debugDrawer)) }
  | _ => none

/-- Embeds `CbtDebugDraw::setDebugMode` on the drawer at address `debug`. -/
def setDebugMode (h : Heap) (debug : Nat) (in_debug_mode : Int) : Option Heap :=
  match h.objs debug with
  | some (.CbtDebugDraw callbacks _) =>
    some { h with
      objs := Function.update h.objs debug (some (.CbtDebugDraw callbacks in_debug_mode)) }
  | _ => none

/-- Embeds `CbtDebugDraw::getDebugMode` on the drawer at address `debug`. -/
def getDebugMode (h : Heap) (debug : Nat) : Option Int :=
  match h.objs debug with
  | some (.CbtDebugDraw _ debug_mode) => some debug_mode
  | _ => none

/-- The assignment `debug->callbacks = *callbacks`. -/
def setCallbacks (h : Heap) (debug : Nat) (callbacks : CbtDebugDrawCallbacks) : Option Heap :=
  match h.objs debug with
  | some (.CbtDebugDraw _ debug_mode) =>
    some { h with
      objs := Function.update h.objs debug (some (.CbtDebugDraw callbacks debug_mode)) }
  | _ => none

/-- Modelled from the spec: the engine flag `btIDebugDraw::DBG_DrawWireframe`. -/
def DBG_DrawWireframe : Int := 1

/-- Modelled from the spec: the engine flag `btIDebugDraw::DBG_DrawContactPoints`. -/
def DBG_DrawContactPoints : Int := 8

/-- Modelled from the spec: the engine flag `btIDebugDraw::DBG_DrawConstraints`. -/
def DBG_DrawConstraints : Int := 2048

/-- Modelled from the spec: the engine flag `btIDebugDraw::DBG_DrawFrames`. -/
def DBG_DrawFrames : Int := 32768

/-- Embeds `cbtWorldCreate`: five allocations, each engine object keeping the
pointers it is constructed with; the handle is the world's address. -/
def cbtWorldCreate (h : Heap) : Nat × Heap :=
  let (collision_config, h) := h.new .btDefaultCollisionConfiguration
  let (dispatcher, h) := h.new (.btCollisionDispatcher collision_config)
  let (broadphase, h) := h.new .btDbvtBroadphase
  let (solver, h) := h.new .btSequentialImpulseConstraintSolver
  let (world, h) := h.new (.btDiscreteDynamicsWorld dispatcher broadphase solver 0)
  (world, h)

/-- Embeds `cbtWorldDestroy`: `none` when `assert(world)` fails or a freed or
foreign object is used. -/
def cbtWorldDestroy (handle : Nat) (h : Heap) : Option Heap :=
  if handle = 0 then none
  else do
    let debugDrawer ← getDebugDrawer h handle
    let h ← if debugDrawer ≠ 0 then
        (getDebugDrawer h handle).bind h.delete
      else some h
    let dispatcher ← getDispatcher h handle
    let h ← (getCollisionConfiguration h dispatcher).bind h.delete
    let h ← h.delete dispatcher
    let h ← (getBroadphase h handle).bind h.delete
    let h ← (getConstraintSolver h handle).bind h.delete
    h.delete handle

/-- Embeds `cbtWorldDebugSetCallbacks`: `none` when `assert(world && callbacks)`
fails.  A drawer is created, given the four-flag debug mode and installed only
when the world has none; the callbacks are stored in either case. -/
def cbtWorldDebugSetCallbacks (handle : Nat) (callbacks : Option CbtDebugDrawCallbacks)
    (h : Heap) : Option Heap :=
  match callbacks with
  | none => none
  | some cb =>
    if handle = 0 then none
    else do
      let debug ← getDebugDrawer h handle
      let (debug, h) ←
        if debug = 0 then do
          let (debug, h) := h.new (.CbtDebugDraw ⟨0, 0, 0, 0⟩ 0)
          let h ← setDebugMode h debug
            (Int.lor (Int.lor (Int.lor DBG_DrawWireframe DBG_DrawFrames) DBG_DrawContactPoints)
              DBG_DrawConstraints)
          let h ← setDebugDrawer h handle debug
          pure (debug, h)
        else pure (debug, h)
      setCallbacks h debug cb

/-- A run of `cbtWorldDebugSetCallbacks` calls on one world, one per element. -/
def registerAll (handle : Nat) : List CbtDebugDrawCallbacks → Heap → Option Heap
  | [], h => some h
  | cb :: rest, h => (cbtWorldDebugSetCallbacks handle (some cb) h).bind (registerAll handle rest)

/-- The addresses a trace releases, in order. -/
def released : List Event → List Nat
  | [] => []
  | Event.delete _ p :: rest => p :: released rest
  | Event.new _ _ :: rest => released rest

/-- The addresses a trace allocates, in order. -/
def allocated : List Event → List Nat
  | [] => []
  | Event.new _ p :: rest => p :: allocated rest
  | Event.delete _ _ :: rest => allocated rest

/-- The empty heap. -/
def Heap.empty : Heap := ⟨0, fun _ => none, []⟩


/-- The events a heap `h1` has recorded beyond those of an earlier heap `h0`. -/
def eventsSince (h0 h1 : Heap) : List Event :=
  h1.trace.drop h0.trace.length

/-- The objects of one world are live in `h`: the five objects `cbtWorldCreate`
allocated right after address `n`, wired as the constructors wire them, with
`d` the world's debug-drawer pointer: null, or the live drawer at `n + 6`. -/
structure WorldLive (h : Heap) (n d : Nat) : Prop where
  config : h.objs (n + 1) = some .btDefaultCollisionConfiguration
  dispatcher : h.objs (n + 2) = some (.btCollisionDispatcher (n + 1))
  broadphase : h.objs (n + 3) = some .btDbvtBroadphase
  solver : h.objs (n + 4) = some .btSequentialImpulseConstraintSolver
  world : h.objs (n + 5) = some (.btDiscreteDynamicsWorld (n + 2) (n + 3) (n + 4) d)
  drawer : d = 0 ∨ (d = n + 6 ∧ ∃ cb m, h.objs (n + 6) = some (.CbtDebugDraw cb m))

/-- The callbacks of the most recent call in the run of registrations that
starts with `first` and goes on with `rest`. -/
def lastCallbacks (first : CbtDebugDrawCallbacks) : List CbtDebugDrawCallbacks →
    CbtDebugDrawCallbacks
  | [] => first
  | cb :: rest => lastCallbacks cb rest

/-! ## User data of shapes and bodies -/

section UserData

variable {α : Type}

/-- Embeds `cbtShapeSetUserPointer`; the pointer is an address. -/
def cbtShapeSetUserPointer (handle : CbtShapeHandle α) (user_pointer : Nat) :
    Option (btCollisionShape α) :=
  match handle with
  | none => none
  | some shape => some { shape with m_userPointer := user_pointer }

/-- Embeds `cbtShapeGetUserPointer`. -/
def cbtShapeGetUserPointer (handle : CbtShapeHandle α) : Option Nat :=
  match handle with
  | none => none
  | some shape => some shape.m_userPointer

/-- Embeds `cbtShapeSetUserIndex`: asserts the shape and `slot == 0 || slot == 1`;
slot 0 is the engine's `setUserIndex`, slot 1 its `setUserIndex2`. -/
def cbtShapeSetUserIndex (handle : CbtShapeHandle α) (slot : Int) (user_index : Int) :
    Option (btCollisionShape α) :=
  match handle with
  | none => none
  | some shape =>
    if slot = 0 ∨ slot = 1 then
      if slot = 0 then some { shape with m_userIndex := user_index }
      else some { shape with m_userIndex2 := user_index }
    else none

/-- Embeds `cbtShapeGetUserIndex`: the same two assertions, then `getUserIndex`
for slot 0 and `getUserIndex2` otherwise. -/
def cbtShapeGetUserIndex (handle : CbtShapeHandle α) (slot : Int) : Option Int :=
  match handle with
  | none => none
  | some shape =>
    if slot = 0 ∨ slot = 1 then
      if slot = 0 then some shape.m_userIndex
      else some shape.m_userIndex2
    else none

/-- Embeds `cbtBodySetUserPointer`; the pointer is an address. -/
def cbtBodySetUserPointer (handle : CbtBodyHandle α) (user_pointer : Nat) :
    Option (btRigidBody α) :=
  match handle with
  | none => none
  | some body => some { body with m_userObjectPointer := user_pointer }

/-- Embeds `cbtBodyGetUserPointer`. -/
def cbtBodyGetUserPointer (handle : CbtBodyHandle α) : Option Nat :=
  match handle with
  | none => none
  | some body => some body.m_userObjectPointer

/-- Embeds `cbtBodySetUserIndex`: asserts the body and `slot >= 0 && slot <= 2`;
slots 0, 1, 2 are the engine's `setUserIndex`, `setUserIndex2`, `setUserIndex3`. -/
def cbtBodySetUserIndex (handle : CbtBodyHandle α) (slot : Int) (user_index : Int) :
    Option (btRigidBody α) :=
  match handle with
  | none => none
  | some body =>
    if 0 ≤ slot ∧ slot ≤ 2 then
      if slot = 0 then some { body with m_userIndex := user_index }
      else if slot = 1 then some { body with m_userIndex2 := user_index }
      else some { body with m_userIndex3 := user_index }
    else none

/-- Embeds `cbtBodyGetUserIndex`: the same two assertions, then the getter of
the slot. -/
def cbtBodyGetUserIndex (handle : CbtBodyHandle α) (slot : Int) : Option Int :=
  match handle with
  | none => none
  | some body =>
    if 0 ≤ slot ∧ slot ≤ 2 then
      if slot = 0 then some body.m_userIndex
      else if slot = 1 then some body.m_userIndex2
      else some body.m_userIndex3
    else none

end UserData

/-! ## Point-to-point constraints -/

/-- Modelled from the spec: the engine's constraint type tags
(`btTypedConstraintType`), by name. -/
inductive btTypedConstraintType where
  | POINT2POINT_CONSTRAINT_TYPE
  | HINGE_CONSTRAINT_TYPE
  | CONETWIST_CONSTRAINT_TYPE
  | D6_CONSTRAINT_TYPE
  | SLIDER_CONSTRAINT_TYPE
  | CONTACT_CONSTRAINT_TYPE
  | D6_SPRING_CONSTRAINT_TYPE
  | GEAR_CONSTRAINT_TYPE
  | FIXED_CONSTRAINT_TYPE
  | D6_SPRING_2_CONSTRAINT_TYPE
deriving DecidableEq

/-- Modelled from the spec: the engine's `btConstraintSetting`, the block of the
three tuning parameters of a point-to-point constraint. -/
structure btConstraintSetting (α : Type) where
  m_tau : α
  m_damping : α
  m_impulseClamp : α
deriving DecidableEq

/-- Modelled from the spec: the object behind a constraint handle as the
point-to-point mutators read it: its type tag and, in the point-to-point
layout, the two pivots and the setting block. -/
structure btTypedConstraint (α : Type) where
  m_constraintType : btTypedConstraintType
  m_pivotInA : btVector3 α
  m_pivotInB : btVector3 α
  m_setting : btConstraintSetting α
deriving DecidableEq

/-- A constraint handle: `none` is the null handle. -/
abbrev CbtConstraintHandle (α : Type) := Option (btTypedConstraint α)

section Constraints

variable {α : Type}

/-- The engine accessor `getConstraintType`. -/
def btTypedConstraint.getConstraintType (con : btTypedConstraint α) : btTypedConstraintType :=
  con.m_constraintType

/-- The engine mutator `setPivotA`. -/
def btTypedConstraint.setPivotA (con : btTypedConstraint α) (pivotA : btVector3 α) :
    btTypedConstraint α :=
  { con with m_pivotInA := pivotA }

/-- The engine mutator `setPivotB`. -/
def btTypedConstraint.setPivotB (con : btTypedConstraint α) (pivotB : btVector3 α) :
    btTypedConstraint α :=
  { con with m_pivotInB := pivotB }

/-- Embeds `cbtConPoint2PointSetPivotA`: asserts a non-null handle of type
point-to-point, then sets pivot A. -/
def cbtConPoint2PointSetPivotA (handle : CbtConstraintHandle α) (pivot : CbtVector3 α) :
    Option (btTypedConstraint α) :=
  match handle with
  | none => none
  | some con =>
    if con.getConstraintType = .POINT2POINT_CONSTRAINT_TYPE then
      some (con.setPivotA ⟨pivot 0, pivot 1, pivot 2⟩)
    else none

/-- Embeds `cbtConPoint2PointSetPivotB`: the same assertion, then sets pivot B. -/
def cbtConPoint2PointSetPivotB (handle : CbtConstraintHandle α) (pivot : CbtVector3 α) :
    Option (btTypedConstraint α) :=
  match handle with
  | none => none
  | some con =>
    if con.getConstraintType = .POINT2POINT_CONSTRAINT_TYPE then
      some (con.setPivotB ⟨pivot 0, pivot 1, pivot 2⟩)
    else none

/-- Embeds `cbtConPoint2PointSetTau`: the same assertion, then
`con->m_setting.m_tau = tau`. -/
def cbtConPoint2PointSetTau (handle : CbtConstraintHandle α) (tau : α) :
    Option (btTypedConstraint α) :=
  match handle with
  | none => none
  | some con =>
    if con.getConstraintType = .POINT2POINT_CONSTRAINT_TYPE then
      some { con with m_setting := { con.m_setting with m_tau := tau } }
    else none

/-- Embeds `cbtConPoint2PointSetDamping`: the same assertion, then
`con->m_setting.m_damping = damping`. -/
def cbtConPoint2PointSetDamping (handle : CbtConstraintHandle α) (damping : α) :
    Option (btTypedConstraint α) :=
  match handle with
  | none => none
  | some con =>
    if con.getConstraintType = .POINT2POINT_CONSTRAINT_TYPE then
      some { con with m_setting := { con.m_setting with m_damping := damping } }
    else none

/-- Embeds `cbtConPoint2PointSetImpulseClamp`: the same assertion, then
`con->m_setting.m_impulseClamp = impulse_clamp`. -/
def cbtConPoint2PointSetImpulseClamp (handle : CbtConstraintHandle α) (impulse_clamp : α) :
    Option (btTypedConstraint α) :=
  match handle with
  | none => none
  | some con =>
    if con.getConstraintType = .POINT2POINT_CONSTRAINT_TYPE then
      some { con with m_setting := { con.m_setting with m_impulseClamp := impulse_clamp } }
    else none

end Constraints

/-! ## Ray test -/

/-- The exposed record `CbtRayCastResult`: hit normal, hit point, hit fraction
and the handle of the hit body (`none` is null). -/
structure CbtRayCastResult (α : Type) where
  hit_normal_world : CbtVector3 α
  hit_point_world : CbtVector3 α
  hit_fraction : α
  body : CbtBodyHandle α

/-- Modelled from the spec: the engine's `ClosestRayResultCallback`: the query
(the two endpoints, filter group, filter mask, flags) and what the engine
records in it (hit normal, hit point, closest hit fraction, hit object, `none`
when there is none). -/
structure ClosestRayResultCallback (α : Type) where
  m_rayFromWorld : btVector3 α
  m_rayToWorld : btVector3 α
  m_collisionFilterGroup : Int
  m_collisionFilterMask : Int
  m_flags : Nat
  m_hitNormalWorld : btVector3 α
  m_hitPointWorld : btVector3 α
  m_closestHitFraction : α
  m_collisionObject : Option (btRigidBody α)

section RayTest

variable {α : Type} [LinearOrderedCommRing α]

/-- Modelled from the spec: the engine constructor
`ClosestRayResultCallback(from, to)`: the endpoints as given, fraction 1, no hit
object, the engine's default group 1, mask -1 and flags 0; the hit normal and
hit point are left as they are in memory, `indeterminate` here. -/
def ClosestRayResultCallback.init (rayFromWorld rayToWorld indeterminate : btVector3 α) :
    ClosestRayResultCallback α :=
  { m_rayFromWorld := rayFromWorld
    m_rayToWorld := rayToWorld
    m_collisionFilterGroup := 1
    m_collisionFilterMask := -1
    m_flags := 0
    m_hitNormalWorld := indeterminate
    m_hitPointWorld := indeterminate
    m_closestHitFraction := 1
    m_collisionObject := none }

/-- The callback `closest` of `cbtRayTestClosest` as it stands right before
`world->rayTest`: constructed from the two endpoints, then given the caller's
group, mask and flags. -/
def closestConfigured (indeterminate : btVector3 α) (ray_from_world ray_to_world : CbtVector3 α)
    (collision_filter_group collision_filter_mask : Int) (flags : Nat) :
    ClosestRayResultCallback α :=
  let from_ : btVector3 α := ⟨ray_from_world 0, ray_from_world 1, ray_from_world 2⟩
  let to_ : btVector3 α := ⟨ray_to_world 0, ray_to_world 1, ray_to_world 2⟩
  let closest := ClosestRayResultCallback.init from_ to_ indeterminate
  let closest := { closest with m_collisionFilterGroup := collision_filter_group }
  let closest := { closest with m_collisionFilterMask := collision_filter_mask }
  { closest with m_flags := flags }

/-- Embeds `cbtRayTestClosest`.  The engine's `rayTest` of the world behind the
handle is a parameter: it receives the two endpoints and the configured callback
and returns the callback as the query leaves it.  `result` is the caller's
record (`none` when the pointer is null); the outcome is the returned `CbtBool`
and the record afterwards, `none` when `assert(handle)` fails. -/
def cbtRayTestClosest
    (rayTest : Nat → btVector3 α → btVector3 α → ClosestRayResultCallback α →
      ClosestRayResultCallback α)
    (indeterminate : btVector3 α) (handle : Nat)
    (ray_from_world ray_to_world : CbtVector3 α)
    (collision_filter_group collision_filter_mask : Int) (flags : Nat)
    (result : Option (CbtRayCastResult α)) : Option (Int × Option (CbtRayCastResult α)) :=
  if handle = 0 then none
  else
    let from_ : btVector3 α := ⟨ray_from_world 0, ray_from_world 1, ray_from_world 2⟩
    let to_ : btVector3 α := ⟨ray_to_world 0, ray_to_world 1, ray_to_world 2⟩
    let closest := closestConfigured indeterminate ray_from_world ray_to_world
      collision_filter_group collision_filter_mask flags
    let closest := rayTest handle from_ to_ closest
    let result := result.map fun _ =>
      { hit_normal_world :=
          ![closest.m_hitNormalWorld.x, closest.m_hitNormalWorld.y, closest.m_hitNormalWorld.z]
        hit_point_world :=
          ![closest.m_hitPointWorld.x, closest.m_hitPointWorld.y, closest.m_hitPointWorld.z]
        hit_fraction := closest.m_closestHitFraction
        body := closest.m_collisionObject }
    some (if closest.m_collisionObject.isSome then CBT_TRUE else CBT_FALSE, result)

end RayTest

/-! ## Concrete inputs -/

/-- A transform with twelve distinct integer entries. -/
def sampleTransform : CbtTransform Int :=
  ![![1, 2, 3], ![4, 5, 6], ![7, 8, 9], ![10, 11, 12]]

/-- A unit sphere shape, as `cbtShapeCreateSphere 1` returns it. -/
def sampleShape : btCollisionShape Int := ⟨.btSphereShape 1, 0, -1, -1⟩

/-- A stand-in for the engine's inertia computation: the mass on every axis. -/
def sampleInertia : btCollisionShape Int → Int → btVector3 Int :=
  fun _ mass => ⟨mass, mass, mass⟩

/-- A static body at the identity transform. -/
def sampleBody : btRigidBody Int :=
  btRigidBody.ofConstructionInfo
    ⟨0, some ⟨btTransform.getIdentity⟩, sampleShape, ⟨0, 0, 0⟩⟩

/-- A transform whose basis doubles every axis, with zero translation. -/
def doubleTransform : CbtTransform Int :=
  ![![2, 0, 0], ![0, 2, 0], ![0, 0, 2], ![0, 0, 0]]

/-- A transform whose basis is the quarter turn about the third axis, with a
translation. -/
def quarterTurnTransform : CbtTransform Int :=
  ![![0, 1, 0], ![-1, 0, 0], ![0, 0, 1], ![5, 6, 7]]

/-- The sample body moved to the quarter-turn transform: native rows are the
columns of `quarterTurnTransform`. -/
def quarterTurnBody : btRigidBody Int :=
  sampleBody.setCenterOfMassTransform
    ⟨btMatrix3x3.ofRows ⟨0, -1, 0⟩ ⟨1, 0, 0⟩ ⟨0, 0, 1⟩, ⟨5, 6, 7⟩⟩

/-- A callback record with four distinct non-null addresses. -/
def sampleCallbacks : CbtDebugDrawCallbacks := ⟨11, 12, 13, 14⟩

/-- Another callback record, different in every member. -/
def otherCallbacks : CbtDebugDrawCallbacks := ⟨21, 22, 23, 24⟩

/-- A point-to-point constraint with distinct integer parameters. -/
def sampleConstraint : btTypedConstraint Int :=
  ⟨.POINT2POINT_CONSTRAINT_TYPE, ⟨1, 2, 3⟩, ⟨4, 5, 6⟩, ⟨7, 8, 9⟩⟩

/-- A constraint of another type (a hinge) behind the same kind of handle. -/
def hingeConstraint : btTypedConstraint Int :=
  ⟨.HINGE_CONSTRAINT_TYPE, ⟨1, 2, 3⟩, ⟨4, 5, 6⟩, ⟨7, 8, 9⟩⟩

/-- A stand-in for the engine's ray query: nothing is hit when the filter mask
is 0, otherwise the sample body is hit at the start point of the ray. -/
def sampleRayTest : Nat → btVector3 Int → btVector3 Int → ClosestRayResultCallback Int →
    ClosestRayResultCallback Int :=
  fun _ rayFrom _ closest =>
    if closest.m_collisionFilterMask = 0 then closest
    else
      { closest with
        m_hitNormalWorld := ⟨0, 1, 0⟩
        m_hitPointWorld := rayFrom
        m_closestHitFraction := 0
        m_collisionObject := some sampleBody }

/-! ## Theorems -/

section WorldLemmas

/-- What `cbtWorldCreate` leaves behind: the handle, the five live objects and the
five allocations appended to the trace. -/
theorem cbtWorldCreate_live (h : Heap) :
    (cbtWorldCreate h).1 = h.next + 5 ∧ (cbtWorldCreate h).2.next = h.next + 5 ∧
    WorldLive (cbtWorldCreate h).2 h.next 0 ∧
    (cbtWorldCreate h).2.trace = h.trace ++
      [Event.new .collisionConfiguration (h.next + 1), Event.new .dispatcher (h.next + 2),
       Event.new .broadphase (h.next + 3), Event.new .solver (h.next + 4),
       Event.new .world (h.next + 5)] := by
  refine ⟨rfl, rfl, ⟨?_, ?_, ?_, ?_, ?_, Or.inl rfl⟩, ?_⟩ <;>
    simp +arith [cbtWorldCreate, Heap.new, Obj.kind, Function.update_apply]

/-- The first registration on a world without a drawer allocates one at the next
address, installs it and stores the callbacks. -/
theorem register_first (h : Heap) (n : Nat) (cb : CbtDebugDrawCallbacks)
    (hl : WorldLive h n 0) (hn : h.next = n + 5) :
    ∃ h1, cbtWorldDebugSetCallbacks (n + 5) (some cb) h = some h1 ∧
      WorldLive h1 n (n + 6) ∧ h1.trace = h.trace ++ [Event.new .debugDrawer (n + 6)] ∧
      h1.objs (n + 6) = some (.CbtDebugDraw cb
        (Int.lor (Int.lor (Int.lor DBG_DrawWireframe DBG_DrawFrames) DBG_DrawContactPoints)
          DBG_DrawConstraints)) := by
  obtain ⟨h1, h2, h3, h4, h5, -⟩ := hl
  simp +arith [cbtWorldDebugSetCallbacks, getDebugDrawer, h5, Heap.new, hn, setDebugMode,
    setDebugDrawer, setCallbacks, Function.update_apply, Obj.kind, h1, h2, h3, h4]
  constructor <;> simp +arith [Function.update_apply, h1, h2, h3, h4]

/-- A registration on a world that has a drawer allocates nothing. -/
theorem register_again (h : Heap) (n : Nat) (cb : CbtDebugDrawCallbacks)
    (hl : WorldLive h n (n + 6)) :
    ∃ h1, cbtWorldDebugSetCallbacks (n + 5) (some cb) h = some h1 ∧
      WorldLive h1 n (n + 6) ∧ h1.trace = h.trace ∧ h1.next = h.next := by
  obtain ⟨h1, h2, h3, h4, h5, h6⟩ := hl
  rcases h6 with h6 | ⟨-, cb0, m, h6⟩
  · omega
  · simp +arith [cbtWorldDebugSetCallbacks, getDebugDrawer, h5, setCallbacks, h6]
    constructor <;> simp +arith [Function.update_apply, h1, h2, h3, h4, h5]

/-- Any run of registrations on a world that has a drawer allocates nothing. -/
theorem registerAll_again (n : Nat) (cbs : List CbtDebugDrawCallbacks) :
    ∀ h : Heap, WorldLive h n (n + 6) →
      ∃ h1, registerAll (n + 5) cbs h = some h1 ∧ WorldLive h1 n (n + 6) ∧
        h1.trace = h.trace := by
  induction cbs with
  | nil => intro h hl; exact ⟨h, rfl, hl, rfl⟩
  | cons cb rest ih =>
    intro h hl
    obtain ⟨h1, e1, l1, t1, -⟩ := register_again h n cb hl
    obtain ⟨h2, e2, l2, t2⟩ := ih h1 l1
    exact ⟨h2, by simp [registerAll, e1, e2], l2, by rw [t2, t1]⟩

/-- A run of registrations on a fresh world allocates the drawer exactly when the
run is not empty. -/
theorem registerAll_live (h : Heap) (n : Nat) (cbs : List CbtDebugDrawCallbacks)
    (hl : WorldLive h n 0) (hn : h.next = n + 5) :
    ∃ h1, registerAll (n + 5) cbs h = some h1 ∧
      WorldLive h1 n (if cbs = [] then 0 else n + 6) ∧
      h1.trace = h.trace ++ (if cbs = [] then [] else [Event.new .debugDrawer (n + 6)]) := by
  cases cbs with
  | nil => exact ⟨h, rfl, by simpa using hl, by simp⟩
  | cons cb rest =>
    obtain ⟨h1, e1, l1, t1, -⟩ := register_first h n cb hl hn
    obtain ⟨h2, e2, l2, t2⟩ := registerAll_again n rest h1 l1
    exact ⟨h2, by simp [registerAll, e1, e2], by simpa using l2, by simp [t2, t1]⟩

/-- The releases of `cbtWorldDestroy` on a live world, in order. -/
theorem cbtWorldDestroy_live (h : Heap) (n d : Nat) (hl : WorldLive h n d) :
    ∃ h1, cbtWorldDestroy (n + 5) h = some h1 ∧
      h1.trace = h.trace ++ (if d = 0 then [] else [Event.delete .debugDrawer d]) ++
        [Event.delete .collisionConfiguration (n + 1), Event.delete .dispatcher (n + 2),
         Event.delete .broadphase (n + 3), Event.delete .solver (n + 4),
         Event.delete .world (n + 5)] := by
  obtain ⟨h1, h2, h3, h4, h5, h6⟩ := hl
  rcases h6 with h6 | ⟨h6, cb0, m, h7⟩
  · subst h6
    simp +arith [cbtWorldDestroy, getDebugDrawer, getDispatcher, getBroadphase,
      getConstraintSolver, getCollisionConfiguration, Heap.delete, Obj.kind,
      Function.update_apply, h1, h2, h3, h4, h5]
  · subst h6
    simp +arith [cbtWorldDestroy, getDebugDrawer, getDispatcher, getBroadphase,
      getConstraintSolver, getCollisionConfiguration, Heap.delete, Obj.kind,
      Function.update_apply, h1, h2, h3, h4, h5, h7]

end WorldLemmas

section CodecTheorems

variable {α : Type}

/-- C1: for every body and every exposed transform `T`, setting the
centre-of-mass transform to `T` and reading it back writes an array equal to `T`
in all twelve entries; the scalar type is arbitrary, so no arithmetic is done on
the entries. -/
theorem setCenterOfMassTransform_get_roundtrip (b : btRigidBody α) (T : CbtTransform α) :
    (cbtBodySetCenterOfMassTransform (some b) T).bind
      (fun b1 => cbtBodyGetCenterOfMassTransform (some b1)) = some T := by
  simp only [cbtBodySetCenterOfMassTransform, Option.some_bind, cbtBodyGetCenterOfMassTransform,
    Option.some.injEq]
  funext i j
  fin_cases i <;> fin_cases j <;> rfl

/-- C2: the native transform built from `T` by the setter and by `cbtBodyCreate`
is one and the same `N`, with native basis element `(j, i)` equal to `T[i][j]`
and origin equal to row 3 of `T`; it is what the created body's motion state and
world transform hold.  The getter exposes at `[i][j]` the native basis element
`(j, i)` of the body's transform and at row 3 its origin. -/
theorem transpose_applied_consistently [LinearOrderedCommRing α]
    (calculateLocalInertia : btCollisionShape α → α → btVector3 α) (mass : α)
    (hm : 0 ≤ mass) (T : CbtTransform α) (shape : btCollisionShape α) (b : btRigidBody α) :
    (∃ N : btTransform α,
      (∀ i j : Fin 3, N.getBasis.elem j i = T i.castSucc j) ∧
      (∀ j : Fin 3, N.getOrigin.get j = T 3 j) ∧
      (cbtBodySetCenterOfMassTransform (some b) T).map
        btRigidBody.getCenterOfMassTransform = some N ∧
      (cbtBodyCreateInfo calculateLocalInertia mass T (some shape)).map
        (fun info => info.m_motionState.map btDefaultMotionState.getWorldTransform)
          = some (some N) ∧
      (cbtBodyCreate calculateLocalInertia mass T (some shape)).map
        btRigidBody.getCenterOfMassTransform = some N) ∧
    (∃ E : CbtTransform α, cbtBodyGetCenterOfMassTransform (some b) = some E ∧
      (∀ i j : Fin 3, E i.castSucc j = b.getCenterOfMassTransform.getBasis.elem j i) ∧
      (∀ j : Fin 3, E 3 j = b.getCenterOfMassTransform.getOrigin.get j)) := by
  refine ⟨⟨⟨btMatrix3x3.ofRows ⟨T 0 0, T 1 0, T 2 0⟩ ⟨T 0 1, T 1 1, T 2 1⟩
      ⟨T 0 2, T 1 2, T 2 2⟩, ⟨T 3 0, T 3 1, T 3 2⟩⟩, ?_, ?_, rfl, ?_, ?_⟩, ⟨_, rfl, ?_, ?_⟩⟩
  · intro i j; fin_cases i <;> fin_cases j <;> rfl
  · intro j; fin_cases j <;> rfl
  · simp [cbtBodyCreateInfo, hm, btDefaultMotionState.getWorldTransform]
  · simp [cbtBodyCreate, cbtBodyCreateInfo, hm, btRigidBody.ofConstructionInfo,
      btDefaultMotionState.getWorldTransform, btRigidBody.getCenterOfMassTransform]
  · intro i j; fin_cases i <;> fin_cases j <;> rfl
  · intro j; fin_cases j <;> rfl

/-- C3: the graphics getter does not transpose: for a body whose motion state
holds `N` it exposes at `[i][j]` the native basis element `(i, j)` and at row 3
the origin.  For a body just created from `T` it therefore returns the transpose
of the basis of `T` with the translation row of `T`, the centre-of-mass getter
returns `T`, and the two agree exactly when the basis of `T` is symmetric. -/
theorem graphics_getter_untransposed [LinearOrderedCommRing α]
    (b : btRigidBody α) (ms : btDefaultMotionState α)
    (calculateLocalInertia : btCollisionShape α → α → btVector3 α) (mass : α)
    (hm : 0 ≤ mass) (T : CbtTransform α) (shape : btCollisionShape α) :
    (∃ E : CbtTransform α,
      cbtBodyGetGraphicsWorldTransform (some { b with m_optionalMotionState := some ms })
        = some E ∧
      (∀ i j : Fin 3, E i.castSucc j = ms.getWorldTransform.getBasis.elem i j) ∧
      (∀ j : Fin 3, E 3 j = ms.getWorldTransform.getOrigin.get j)) ∧
    (∃ (body : btRigidBody α) (G : CbtTransform α),
      cbtBodyCreate calculateLocalInertia mass T (some shape) = some body ∧
      cbtBodyGetGraphicsWorldTransform (some body) = some G ∧
      (∀ i j : Fin 3, G i.castSucc j = T j.castSucc i) ∧
      (∀ j : Fin 3, G 3 j = T 3 j) ∧
      cbtBodyGetCenterOfMassTransform (some body) = some T ∧
      (G = T ↔ ∀ i j : Fin 3, T i.castSucc j = T j.castSucc i)) := by
  refine ⟨⟨_, rfl, ?_, ?_⟩, ?_⟩
  · intro i j; fin_cases i <;> fin_cases j <;> rfl
  · intro j; fin_cases j <;> rfl
  · have hc : ∃ body, cbtBodyCreate calculateLocalInertia mass T (some shape) = some body ∧
        body.m_optionalMotionState = some ⟨⟨btMatrix3x3.ofRows ⟨T 0 0, T 1 0, T 2 0⟩
          ⟨T 0 1, T 1 1, T 2 1⟩ ⟨T 0 2, T 1 2, T 2 2⟩, ⟨T 3 0, T 3 1, T 3 2⟩⟩⟩ ∧
        body.m_worldTransform = ⟨btMatrix3x3.ofRows ⟨T 0 0, T 1 0, T 2 0⟩
          ⟨T 0 1, T 1 1, T 2 1⟩ ⟨T 0 2, T 1 2, T 2 2⟩, ⟨T 3 0, T 3 1, T 3 2⟩⟩ := by
      simp [cbtBodyCreate, cbtBodyCreateInfo, hm, btRigidBody.ofConstructionInfo,
        btDefaultMotionState.getWorldTransform]
    obtain ⟨body, hb, hms, hw⟩ := hc
    refine ⟨body, ![![T 0 0, T 1 0, T 2 0], ![T 0 1, T 1 1, T 2 1], ![T 0 2, T 1 2, T 2 2],
      ![T 3 0, T 3 1, T 3 2]], hb, ?_, ?_, ?_, ?_, ?_⟩
    · simp only [cbtBodyGetGraphicsWorldTransform, btRigidBody.getMotionState, hms]
      rfl
    · intro i j; fin_cases i <;> fin_cases j <;> rfl
    · intro j; fin_cases j <;> rfl
    · simp only [cbtBodyGetCenterOfMassTransform, btRigidBody.getCenterOfMassTransform, hw,
        Option.some.injEq]
      funext i j
      fin_cases i <;> fin_cases j <;> rfl
    · constructor
      · intro h i j
        have := congrFun (congrFun h i.castSucc) j
        rw [← this]
        fin_cases i <;> fin_cases j <;> rfl
      · intro h
        funext i j
        fin_cases i <;> fin_cases j <;>
          first
          | rfl
          | exact h 0 1 | exact h 0 2 | exact h 1 0 | exact h 1 2 | exact h 2 0 | exact h 2 1

/-- Witness for C2 at mass 1, the sample transform, shape and body: create and
set build the same native transform. -/
theorem transpose_applied_consistently_witness :
    (0 : Int) ≤ 1 ∧
    (cbtBodyCreate sampleInertia 1 sampleTransform (some sampleShape)).map
        btRigidBody.getCenterOfMassTransform
      = (cbtBodySetCenterOfMassTransform (some sampleBody) sampleTransform).map
        btRigidBody.getCenterOfMassTransform := by
  refine ⟨by decide, ?_⟩
  obtain ⟨⟨N, -, -, h1, -, h2⟩, -⟩ :=
    transpose_applied_consistently sampleInertia 1 (by decide) sampleTransform sampleShape
      sampleBody
  rw [h1, h2]

/-- Witness for C3 at mass 1 and the sample transform, whose basis is not
symmetric: the graphics getter of the created body returns the transposed basis
and differs from the centre-of-mass getter. -/
theorem graphics_getter_untransposed_witness :
    (0 : Int) ≤ 1 ∧
    ∃ (body : btRigidBody Int) (G : CbtTransform Int),
      cbtBodyCreate sampleInertia 1 sampleTransform (some sampleShape) = some body ∧
      cbtBodyGetGraphicsWorldTransform (some body) = some G ∧
      G 0 1 = 4 ∧ sampleTransform 0 1 = 2 ∧
      cbtBodyGetCenterOfMassTransform (some body) = some sampleTransform ∧
      G ≠ sampleTransform := by
  refine ⟨by decide, ?_⟩
  obtain ⟨-, body, G, h1, h2, h3, -, h5, h6⟩ :=
    graphics_getter_untransposed sampleBody ⟨btTransform.getIdentity⟩ sampleInertia 1
      (by decide) sampleTransform sampleShape
  refine ⟨body, G, h1, h2, ?_, rfl, h5, ?_⟩
  · have := h3 0 1
    simpa [sampleTransform] using this
  · intro hG
    have := (h6.mp hG) 0 1
    simp [sampleTransform] at this

end CodecTheorems

section InverseTheorems

variable {α : Type} [CommRing α]

/-- A basis with orthonormal rows has orthonormal columns. -/
theorem orthonormal_columns (m : btMatrix3x3 α) (h : m.IsOrthonormal) (r s : Fin 3) :
    (m.getRow 0).get r * (m.getRow 0).get s + (m.getRow 1).get r * (m.getRow 1).get s
      + (m.getRow 2).get r * (m.getRow 2).get s = if r = s then 1 else 0 := by
  have hM : (Matrix.of fun i j => m.elem i j) * (Matrix.of fun i j => m.elem i j).transpose
      = (1 : Matrix (Fin 3) (Fin 3) α) := by
    ext i j
    have := h i j
    simp only [btVector3.dot] at this
    simp only [Matrix.mul_apply, Fin.sum_univ_three, Matrix.transpose_apply, Matrix.of_apply,
      Matrix.one_apply, btMatrix3x3.elem, btVector3.get]
    simpa using this
  have hN := Matrix.mul_eq_one_comm.mp hM
  have := congrFun (congrFun hN r) s
  simp only [Matrix.mul_apply, Fin.sum_univ_three, Matrix.transpose_apply, Matrix.of_apply,
    Matrix.one_apply, btMatrix3x3.elem] at this
  exact this

/-- Inverse first, then the transform itself: the identity, for an orthonormal basis. -/
theorem compose_inverse_left (t : btTransform α) (h : t.getBasis.IsOrthonormal) :
    composeExposed (writeTransposed t.inverse) (writeTransposed t) = identityExposed := by
  have h00 := h 0 0
  have h01 := h 0 1
  have h02 := h 0 2
  have h10 := h 1 0
  have h11 := h 1 1
  have h12 := h 1 2
  have h20 := h 2 0
  have h21 := h 2 1
  have h22 := h 2 2
  simp [btVector3.dot, btMatrix3x3.getRow, btTransform.getBasis] at h00 h01 h02 h10 h11 h12 h20 h21 h22
  funext i j
  fin_cases i <;> fin_cases j <;>
    simp [composeExposed, identityExposed, writeTransposed, btTransform.inverse,
      btMatrix3x3.transpose, btMatrix3x3.mulVec, btMatrix3x3.ofRows, btMatrix3x3.getRow,
      btVector3.dot, btVector3.neg, btTransform.getBasis, btTransform.getOrigin,
      Matrix.vecHead, Matrix.vecTail] <;>
    first
    | linear_combination h00 | linear_combination h01 | linear_combination h02
    | linear_combination h10 | linear_combination h11 | linear_combination h12
    | linear_combination h20 | linear_combination h21 | linear_combination h22
    | linear_combination (-t.m_origin.x) * h00 + (-t.m_origin.y) * h10 + (-t.m_origin.z) * h20
    | linear_combination (-t.m_origin.x) * h01 + (-t.m_origin.y) * h11 + (-t.m_origin.z) * h21
    | linear_combination (-t.m_origin.x) * h02 + (-t.m_origin.y) * h12 + (-t.m_origin.z) * h22

/-- The transform first, then its inverse: the identity, for an orthonormal basis. -/
theorem compose_inverse_right (t : btTransform α) (h : t.getBasis.IsOrthonormal) :
    composeExposed (writeTransposed t) (writeTransposed t.inverse) = identityExposed := by
  have c := orthonormal_columns t.getBasis h
  have h00 := c 0 0
  have h01 := c 0 1
  have h02 := c 0 2
  have h10 := c 1 0
  have h11 := c 1 1
  have h12 := c 1 2
  have h20 := c 2 0
  have h21 := c 2 1
  have h22 := c 2 2
  simp [btVector3.get, btMatrix3x3.getRow, btTransform.getBasis] at h00 h01 h02 h10 h11 h12 h20 h21 h22
  funext i j
  fin_cases i <;> fin_cases j <;>
    simp [composeExposed, identityExposed, writeTransposed, btTransform.inverse,
      btMatrix3x3.transpose, btMatrix3x3.mulVec, btMatrix3x3.ofRows, btMatrix3x3.getRow,
      btVector3.dot, btVector3.neg, btTransform.getBasis, btTransform.getOrigin,
      Matrix.vecHead, Matrix.vecTail] <;>
    first
    | linear_combination h00 | linear_combination h01 | linear_combination h02
    | linear_combination h10 | linear_combination h11 | linear_combination h12
    | linear_combination h20 | linear_combination h21 | linear_combination h22
    | ring

/-- C4, amended: for every body whose centre-of-mass basis has orthonormal rows,
the inverse getter and the getter both succeed and the two exposed transforms
compose, in either order, to the identity transform (exact arithmetic in a
commutative ring). -/
theorem inverse_composes_to_identity (b : btRigidBody α)
    (h : b.getCenterOfMassTransform.getBasis.IsOrthonormal) :
    ∃ A B : CbtTransform α,
      cbtBodyGetInvCenterOfMassTransform (some b) = some A ∧
      cbtBodyGetCenterOfMassTransform (some b) = some B ∧
      composeExposed A B = identityExposed ∧ composeExposed B A = identityExposed :=
  ⟨_, _, rfl, rfl, compose_inverse_left _ h, compose_inverse_right _ h⟩

/-- Witness for C4 amended: the quarter-turn body has orthonormal rows. -/
theorem inverse_composes_to_identity_witness :
    quarterTurnBody.getCenterOfMassTransform.getBasis.IsOrthonormal ∧
    ∃ A B : CbtTransform Int,
      cbtBodyGetInvCenterOfMassTransform (some quarterTurnBody) = some A ∧
      cbtBodyGetCenterOfMassTransform (some quarterTurnBody) = some B ∧
      composeExposed A B = identityExposed ∧ composeExposed B A = identityExposed :=
  ⟨by decide, inverse_composes_to_identity quarterTurnBody (by decide)⟩

/-- C4 as stated fails: the body whose centre-of-mass transform was set to the
doubling transform has inverse getter and getter composing to four times the
identity basis, in either order. -/
theorem inverse_composition_not_identity :
    ∃ (b : btRigidBody Int) (A B : CbtTransform Int),
      cbtBodySetCenterOfMassTransform (some sampleBody) doubleTransform = some b ∧
      cbtBodyGetInvCenterOfMassTransform (some b) = some A ∧
      cbtBodyGetCenterOfMassTransform (some b) = some B ∧
      composeExposed A B = ![![4, 0, 0], ![0, 4, 0], ![0, 0, 4], ![0, 0, 0]] ∧
      composeExposed A B ≠ identityExposed ∧ composeExposed B A ≠ identityExposed := by
  refine ⟨_, _, _, rfl, rfl, rfl, ?_, ?_, ?_⟩ <;> decide

end InverseTheorems

section CreationTheorems

variable {α : Type} [LinearOrderedCommRing α]

/-- C5: with mass exactly 0 `cbtBodyCreate` builds the body with local inertia
`(0, 0, 0)`, the result is the same whatever the shape's inertia computation is
(it is not consulted), and the body reports `cbtBodyIsStatic == CBT_TRUE`; with
a mass above 0 the body is built with the vector the shape's
`calculateLocalInertia(mass)` returns, component for component the vector
`cbtShapeCalculateLocalInertia` writes for that shape and mass. -/
theorem cbtBodyCreate_local_inertia
    (calculateLocalInertia : btCollisionShape α → α → btVector3 α)
    (T : CbtTransform α) (shape : btCollisionShape α) (mass : α) (hm : 0 < mass) :
    (∃ info, cbtBodyCreateInfo calculateLocalInertia 0 T (some shape) = some info ∧
      info.m_localInertia = ⟨0, 0, 0⟩) ∧
    (∃ body, cbtBodyCreate calculateLocalInertia 0 T (some shape) = some body ∧
      body.m_localInertia = ⟨0, 0, 0⟩ ∧
      cbtBodyIsStatic (some body) = some CBT_TRUE ∧
      ∀ other : btCollisionShape α → α → btVector3 α,
        cbtBodyCreate other 0 T (some shape) = some body) ∧
    (∃ info, cbtBodyCreateInfo calculateLocalInertia mass T (some shape) = some info ∧
      info.m_localInertia = calculateLocalInertia shape mass) ∧
    (∃ (body : btRigidBody α) (inertia : CbtVector3 α),
      cbtBodyCreate calculateLocalInertia mass T (some shape) = some body ∧
      cbtShapeCalculateLocalInertia calculateLocalInertia (some shape) mass = some inertia ∧
      body.m_localInertia = calculateLocalInertia shape mass ∧
      ∀ c : Fin 3, body.m_localInertia.get c = inertia c) := by
  have hne : mass ≠ 0 := ne_of_gt hm
  have e0 : ∀ f : btCollisionShape α → α → btVector3 α,
      cbtBodyCreateInfo f 0 T (some shape) =
        some ⟨0, some ⟨⟨btMatrix3x3.ofRows ⟨T 0 0, T 1 0, T 2 0⟩ ⟨T 0 1, T 1 1, T 2 1⟩
          ⟨T 0 2, T 1 2, T 2 2⟩, ⟨T 3 0, T 3 1, T 3 2⟩⟩⟩, shape, ⟨0, 0, 0⟩⟩ := by
    intro f
    simp [cbtBodyCreateInfo]
  have e1 : cbtBodyCreateInfo calculateLocalInertia mass T (some shape) =
      some ⟨mass, some ⟨⟨btMatrix3x3.ofRows ⟨T 0 0, T 1 0, T 2 0⟩ ⟨T 0 1, T 1 1, T 2 1⟩
        ⟨T 0 2, T 1 2, T 2 2⟩, ⟨T 3 0, T 3 1, T 3 2⟩⟩⟩, shape,
        calculateLocalInertia shape mass⟩ := by
    simp [cbtBodyCreateInfo, hm.le, hne]
  refine ⟨⟨_, e0 _, rfl⟩, ⟨_, by rw [cbtBodyCreate, e0]; rfl, rfl, ?_, ?_⟩, ⟨_, e1, rfl⟩,
    ⟨_, ![(calculateLocalInertia shape mass).x, (calculateLocalInertia shape mass).y,
        (calculateLocalInertia shape mass).z], by rw [cbtBodyCreate, e1]; rfl,
      by simp [cbtShapeCalculateLocalInertia, hm], rfl, ?_⟩⟩
  · simp [cbtBodyIsStatic, btRigidBody.isStaticObject, btRigidBody.ofConstructionInfo,
      CF_STATIC_OBJECT]
  · intro other
    rw [cbtBodyCreate, e0]
    rfl
  · intro c
    fin_cases c <;> rfl

/-- Witness for C5 at mass 3 with the sample shape, transform and inertia. -/
theorem cbtBodyCreate_local_inertia_witness :
    (0 : Int) < 3 ∧
    (∃ body, cbtBodyCreate sampleInertia 0 sampleTransform (some sampleShape) = some body ∧
      body.m_localInertia = ⟨0, 0, 0⟩ ∧ cbtBodyIsStatic (some body) = some CBT_TRUE) ∧
    (∃ body, cbtBodyCreate sampleInertia 3 sampleTransform (some sampleShape) = some body ∧
      body.m_localInertia = ⟨3, 3, 3⟩) := by
  refine ⟨by decide, ?_⟩
  obtain ⟨-, ⟨b0, h0, h1, h2, -⟩, -, ⟨b3, -, h3, -, h4, -⟩⟩ :=
    cbtBodyCreate_local_inertia sampleInertia sampleTransform sampleShape 3 (by decide)
  exact ⟨⟨b0, h0, h1, h2⟩, ⟨b3, h3, h4⟩⟩

/-- C6: each sized shape constructor returns nothing (its assertion fails) when
a size parameter is zero or negative, and returns a shape when all its size
parameters are positive and, for capsule, cylinder and cone, the axis is one of
the three enumerants. -/
theorem sized_constructors_check_positivity (he : CbtVector3 α) (x y r ht : α) (axis : Int) :
    ((he 0 ≤ 0 ∨ he 1 ≤ 0 ∨ he 2 ≤ 0) → cbtShapeCreateBox he = none) ∧
    ((0 < he 0 ∧ 0 < he 1 ∧ 0 < he 2) → (cbtShapeCreateBox he).isSome) ∧
    ((x ≤ 0 ∨ y ≤ 0) → cbtShapeCreateBox2d x y = none) ∧
    ((0 < x ∧ 0 < y) → (cbtShapeCreateBox2d x y).isSome) ∧
    (r ≤ 0 → cbtShapeCreateSphere r = none) ∧
    (0 < r → (cbtShapeCreateSphere r).isSome) ∧
    ((r ≤ 0 ∨ ht ≤ 0) → cbtShapeCreateCapsule r ht axis = none) ∧
    ((0 < r ∧ 0 < ht ∧ (axis = CBT_AXIS_X ∨ axis = CBT_AXIS_Y ∨ axis = CBT_AXIS_Z)) →
      (cbtShapeCreateCapsule r ht axis).isSome) ∧
    ((he 0 ≤ 0 ∨ he 1 ≤ 0 ∨ he 2 ≤ 0) → cbtShapeCreateCylinder he axis = none) ∧
    ((0 < he 0 ∧ 0 < he 1 ∧ 0 < he 2 ∧
        (axis = CBT_AXIS_X ∨ axis = CBT_AXIS_Y ∨ axis = CBT_AXIS_Z)) →
      (cbtShapeCreateCylinder he axis).isSome) ∧
    ((r ≤ 0 ∨ ht ≤ 0) → cbtShapeCreateCone r ht axis = none) ∧
    ((0 < r ∧ 0 < ht ∧ (axis = CBT_AXIS_X ∨ axis = CBT_AXIS_Y ∨ axis = CBT_AXIS_Z)) →
      (cbtShapeCreateCone r ht axis).isSome) := by
  refine ⟨?_, ?_, ?_, ?_, ?_, ?_, ?_, ?_, ?_, ?_, ?_, ?_⟩
  · intro h
    have : ¬ (0 < he 0 ∧ 0 < he 1 ∧ 0 < he 2) := by
      rintro ⟨a, b, c⟩
      rcases h with h | h | h
      · exact absurd a (not_lt.mpr h)
      · exact absurd b (not_lt.mpr h)
      · exact absurd c (not_lt.mpr h)
    simp [cbtShapeCreateBox, this]
  · intro h
    simp [cbtShapeCreateBox, h]
  · intro h
    have : ¬ (0 < x ∧ 0 < y) := by
      rintro ⟨a, b⟩
      rcases h with h | h
      · exact absurd a (not_lt.mpr h)
      · exact absurd b (not_lt.mpr h)
    simp [cbtShapeCreateBox2d, this]
  · intro h
    simp [cbtShapeCreateBox2d, h]
  · intro h
    simp [cbtShapeCreateSphere, not_lt.mpr h]
  · intro h
    simp [cbtShapeCreateSphere, h]
  · intro h
    have : ¬ (0 < r ∧ 0 < ht ∧ CBT_AXIS_X ≤ axis ∧ axis ≤ CBT_AXIS_Z) := by
      rintro ⟨a, b, -⟩
      rcases h with h | h
      · exact absurd a (not_lt.mpr h)
      · exact absurd b (not_lt.mpr h)
    simp [cbtShapeCreateCapsule, this]
  · rintro ⟨a, b, c⟩
    have hax : CBT_AXIS_X ≤ axis ∧ axis ≤ CBT_AXIS_Z := by
      simp only [CBT_AXIS_X, CBT_AXIS_Y, CBT_AXIS_Z] at c ⊢
      omega
    simp only [cbtShapeCreateCapsule, a, b, hax, and_self, if_true]
    split_ifs <;> rfl
  · intro h
    have : ¬ (0 < he 0 ∧ 0 < he 1 ∧ 0 < he 2) := by
      rintro ⟨a, b, c⟩
      rcases h with h | h | h
      · exact absurd a (not_lt.mpr h)
      · exact absurd b (not_lt.mpr h)
      · exact absurd c (not_lt.mpr h)
    simp [cbtShapeCreateCylinder, this]
  · rintro ⟨a, b, c, -⟩
    simp only [cbtShapeCreateCylinder, a, b, c, and_self, if_true]
    split_ifs <;> rfl
  · intro h
    have : ¬ (0 < r ∧ 0 < ht ∧ CBT_AXIS_X ≤ axis ∧ axis ≤ CBT_AXIS_Z) := by
      rintro ⟨a, b, -⟩
      rcases h with h | h
      · exact absurd a (not_lt.mpr h)
      · exact absurd b (not_lt.mpr h)
    simp [cbtShapeCreateCone, this]
  · rintro ⟨a, b, c⟩
    have hax : CBT_AXIS_X ≤ axis ∧ axis ≤ CBT_AXIS_Z := by
      simp only [CBT_AXIS_X, CBT_AXIS_Y, CBT_AXIS_Z] at c ⊢
      omega
    simp only [cbtShapeCreateCone, a, b, hax, and_self, if_true]
    split_ifs <;> rfl

/-- Witness for C6 on integers: a box with one zero half-extent and a capsule
with a negative height are refused, a unit sphere and a cylinder with positive
half-extents on the Y axis are built. -/
theorem sized_constructors_check_positivity_witness :
    cbtShapeCreateBox (![1, 0, 1] : CbtVector3 Int) = none ∧
    cbtShapeCreateCapsule (1 : Int) (-2) CBT_AXIS_Y = none ∧
    (cbtShapeCreateSphere (1 : Int)).isSome ∧
    (cbtShapeCreateCylinder (![1, 2, 3] : CbtVector3 Int) CBT_AXIS_Y).isSome :=
  ⟨(sized_constructors_check_positivity ![1, 0, 1] 1 1 1 1 CBT_AXIS_Y).1 (by decide),
   (sized_constructors_check_positivity ![1, 1, 1] 1 1 1 (-2) CBT_AXIS_Y).2.2.2.2.2.2.1
     (by decide),
   (sized_constructors_check_positivity ![1, 1, 1] 1 1 1 1 CBT_AXIS_Y).2.2.2.2.2.1 (by decide),
   (sized_constructors_check_positivity ![1, 2, 3] 1 1 1 1 CBT_AXIS_Y).2.2.2.2.2.2.2.2.2.1
     (by decide)⟩

/-- C7, where the code departs from it: for an axis that is none of the three
enumerants and positive sizes, capsule and cone are refused by their assertion,
but `cbtShapeCreateCylinder`, whose assertion does not check the axis, returns
the Z-axis cylinder. -/
theorem cylinder_accepts_invalid_axis (he : CbtVector3 α) (r ht : α) (axis : Int)
    (hax : axis ≠ CBT_AXIS_X ∧ axis ≠ CBT_AXIS_Y ∧ axis ≠ CBT_AXIS_Z)
    (hpos : 0 < he 0 ∧ 0 < he 1 ∧ 0 < he 2) :
    cbtShapeCreateCapsule r ht axis = none ∧
    cbtShapeCreateCone r ht axis = none ∧
    cbtShapeCreateCylinder he axis
      = some ⟨.btCylinderShapeZ ⟨he 0, he 1, he 2⟩, 0, -1, -1⟩ := by
  obtain ⟨hx, hy, hz⟩ := hax
  have hr : ¬ (CBT_AXIS_X ≤ axis ∧ axis ≤ CBT_AXIS_Z) := by
    simp only [CBT_AXIS_X, CBT_AXIS_Y, CBT_AXIS_Z] at hx hy hz ⊢
    omega
  refine ⟨?_, ?_, ?_⟩
  · simp only [cbtShapeCreateCapsule]
    rw [if_neg]
    rintro ⟨-, -, h⟩
    exact hr h
  · simp only [cbtShapeCreateCone]
    rw [if_neg]
    rintro ⟨-, -, h⟩
    exact hr h
  · simp [cbtShapeCreateCylinder, hpos, hx, hy]

/-- Witness for C7 at axis 3 with unit sizes. -/
theorem cylinder_accepts_invalid_axis_witness :
    cbtShapeCreateCapsule (1 : Int) 1 3 = none ∧
    cbtShapeCreateCone (1 : Int) 1 3 = none ∧
    cbtShapeCreateCylinder (![1, 1, 1] : CbtVector3 Int) 3
      = some ⟨.btCylinderShapeZ ⟨1, 1, 1⟩, 0, -1, -1⟩ :=
  cylinder_accepts_invalid_axis ![1, 1, 1] 1 1 3 (by decide) (by decide)

/-- C8: with positive sizes, axis Y builds the engine's default-axis class,
axis X the X class and axis Z the Z class, each with the size parameters as
given, for capsule, cylinder and cone; the three results are pairwise distinct. -/
theorem axis_selects_variant (r ht : α) (he : CbtVector3 α)
    (hr : 0 < r) (hh : 0 < ht) (hpos : 0 < he 0 ∧ 0 < he 1 ∧ 0 < he 2) :
    (cbtShapeCreateCapsule r ht CBT_AXIS_Y = some ⟨.btCapsuleShape r ht, 0, -1, -1⟩ ∧
     cbtShapeCreateCapsule r ht CBT_AXIS_X = some ⟨.btCapsuleShapeX r ht, 0, -1, -1⟩ ∧
     cbtShapeCreateCapsule r ht CBT_AXIS_Z = some ⟨.btCapsuleShapeZ r ht, 0, -1, -1⟩ ∧
     cbtShapeCreateCapsule r ht CBT_AXIS_X ≠ cbtShapeCreateCapsule r ht CBT_AXIS_Y ∧
     cbtShapeCreateCapsule r ht CBT_AXIS_X ≠ cbtShapeCreateCapsule r ht CBT_AXIS_Z ∧
     cbtShapeCreateCapsule r ht CBT_AXIS_Y ≠ cbtShapeCreateCapsule r ht CBT_AXIS_Z) ∧
    (cbtShapeCreateCylinder he CBT_AXIS_Y
        = some ⟨.btCylinderShape ⟨he 0, he 1, he 2⟩, 0, -1, -1⟩ ∧
     cbtShapeCreateCylinder he CBT_AXIS_X
        = some ⟨.btCylinderShapeX ⟨he 0, he 1, he 2⟩, 0, -1, -1⟩ ∧
     cbtShapeCreateCylinder he CBT_AXIS_Z
        = some ⟨.btCylinderShapeZ ⟨he 0, he 1, he 2⟩, 0, -1, -1⟩ ∧
     cbtShapeCreateCylinder he CBT_AXIS_X ≠ cbtShapeCreateCylinder he CBT_AXIS_Y ∧
     cbtShapeCreateCylinder he CBT_AXIS_X ≠ cbtShapeCreateCylinder he CBT_AXIS_Z ∧
     cbtShapeCreateCylinder he CBT_AXIS_Y ≠ cbtShapeCreateCylinder he CBT_AXIS_Z) ∧
    (cbtShapeCreateCone r ht CBT_AXIS_Y = some ⟨.btConeShape r ht, 0, -1, -1⟩ ∧
     cbtShapeCreateCone r ht CBT_AXIS_X = some ⟨.btConeShapeX r ht, 0, -1, -1⟩ ∧
     cbtShapeCreateCone r ht CBT_AXIS_Z = some ⟨.btConeShapeZ r ht, 0, -1, -1⟩ ∧
     cbtShapeCreateCone r ht CBT_AXIS_X ≠ cbtShapeCreateCone r ht CBT_AXIS_Y ∧
     cbtShapeCreateCone r ht CBT_AXIS_X ≠ cbtShapeCreateCone r ht CBT_AXIS_Z ∧
     cbtShapeCreateCone r ht CBT_AXIS_Y ≠ cbtShapeCreateCone r ht CBT_AXIS_Z) := by
  have c1 : cbtShapeCreateCapsule r ht CBT_AXIS_Y = some ⟨.btCapsuleShape r ht, 0, -1, -1⟩ := by
    simp [cbtShapeCreateCapsule, hr, hh, CBT_AXIS_X, CBT_AXIS_Y, CBT_AXIS_Z]
  have c0 : cbtShapeCreateCapsule r ht CBT_AXIS_X = some ⟨.btCapsuleShapeX r ht, 0, -1, -1⟩ := by
    simp [cbtShapeCreateCapsule, hr, hh, CBT_AXIS_X, CBT_AXIS_Z]
  have c2 : cbtShapeCreateCapsule r ht CBT_AXIS_Z = some ⟨.btCapsuleShapeZ r ht, 0, -1, -1⟩ := by
    simp [cbtShapeCreateCapsule, hr, hh, CBT_AXIS_X, CBT_AXIS_Y, CBT_AXIS_Z]
  have y1 : cbtShapeCreateCylinder he CBT_AXIS_Y
      = some ⟨.btCylinderShape ⟨he 0, he 1, he 2⟩, 0, -1, -1⟩ := by
    simp [cbtShapeCreateCylinder, hpos, CBT_AXIS_X, CBT_AXIS_Y]
  have y0 : cbtShapeCreateCylinder he CBT_AXIS_X
      = some ⟨.btCylinderShapeX ⟨he 0, he 1, he 2⟩, 0, -1, -1⟩ := by
    simp [cbtShapeCreateCylinder, hpos]
  have y2 : cbtShapeCreateCylinder he CBT_AXIS_Z
      = some ⟨.btCylinderShapeZ ⟨he 0, he 1, he 2⟩, 0, -1, -1⟩ := by
    simp [cbtShapeCreateCylinder, hpos, CBT_AXIS_X, CBT_AXIS_Y, CBT_AXIS_Z]
  have k1 : cbtShapeCreateCone r ht CBT_AXIS_Y = some ⟨.btConeShape r ht, 0, -1, -1⟩ := by
    simp [cbtShapeCreateCone, hr, hh, CBT_AXIS_X, CBT_AXIS_Y, CBT_AXIS_Z]
  have k0 : cbtShapeCreateCone r ht CBT_AXIS_X = some ⟨.btConeShapeX r ht, 0, -1, -1⟩ := by
    simp [cbtShapeCreateCone, hr, hh, CBT_AXIS_X, CBT_AXIS_Z]
  have k2 : cbtShapeCreateCone r ht CBT_AXIS_Z = some ⟨.btConeShapeZ r ht, 0, -1, -1⟩ := by
    simp [cbtShapeCreateCone, hr, hh, CBT_AXIS_X, CBT_AXIS_Y, CBT_AXIS_Z]
  refine ⟨⟨c1, c0, c2, ?_, ?_, ?_⟩, ⟨y1, y0, y2, ?_, ?_, ?_⟩, ⟨k1, k0, k2, ?_, ?_, ?_⟩⟩ <;>
    simp [c0, c1, c2, y0, y1, y2, k0, k1, k2]

/-- Witness for C8 on integers: radius 1, height 2, half-extents (1, 2, 3). -/
theorem axis_selects_variant_witness :
    cbtShapeCreateCapsule (1 : Int) 2 CBT_AXIS_Y = some ⟨.btCapsuleShape 1 2, 0, -1, -1⟩ ∧
    cbtShapeCreateCylinder (![1, 2, 3] : CbtVector3 Int) CBT_AXIS_X
      = some ⟨.btCylinderShapeX ⟨1, 2, 3⟩, 0, -1, -1⟩ ∧
    cbtShapeCreateCone (1 : Int) 2 CBT_AXIS_Z = some ⟨.btConeShapeZ 1 2, 0, -1, -1⟩ :=
  have w := axis_selects_variant (1 : Int) 2 ![1, 2, 3] (by decide) (by decide) (by decide)
  ⟨w.1.1, w.2.1.2.1, w.2.2.2.2.1⟩

end CreationTheorems

section WorldTheorems

/-- C9: for every heap and every run of callback registrations (none, one or
several) on a world fresh from `cbtWorldCreate`, `cbtWorldDestroy` succeeds and
releases, in this order, the debug-drawer if one was registered, the collision
configuration, the dispatcher, the broadphase, the solver and the world; the
released addresses are pairwise distinct and are exactly the addresses allocated
since the world's creation began. -/
theorem cbtWorldDestroy_release_sequence (h : Heap) (cbs : List CbtDebugDrawCallbacks) :
    ∃ h2 h3 : Heap,
      registerAll (cbtWorldCreate h).1 cbs (cbtWorldCreate h).2 = some h2 ∧
      cbtWorldDestroy (cbtWorldCreate h).1 h2 = some h3 ∧
      eventsSince h h2 =
        [Event.new .collisionConfiguration (h.next + 1), Event.new .dispatcher (h.next + 2),
         Event.new .broadphase (h.next + 3), Event.new .solver (h.next + 4),
         Event.new .world (h.next + 5)] ++
        (if cbs = [] then [] else [Event.new .debugDrawer (h.next + 6)]) ∧
      eventsSince h2 h3 =
        (if cbs = [] then [] else [Event.delete .debugDrawer (h.next + 6)]) ++
        [Event.delete .collisionConfiguration (h.next + 1),
         Event.delete .dispatcher (h.next + 2), Event.delete .broadphase (h.next + 3),
         Event.delete .solver (h.next + 4), Event.delete .world (h.next + 5)] ∧
      (released (eventsSince h2 h3)).Nodup ∧
      (released (eventsSince h2 h3)).Perm (allocated (eventsSince h h2)) ∧
      allocated (eventsSince h2 h3) = [] ∧ released (eventsSince h h2) = [] := by
  obtain ⟨hw, hn, hl, ht⟩ := cbtWorldCreate_live h
  obtain ⟨h2, e2, l2, t2⟩ := registerAll_live (cbtWorldCreate h).2 h.next cbs hl hn
  obtain ⟨h3, e3, t3⟩ := cbtWorldDestroy_live h2 h.next _ l2
  rw [hw]
  have s2 : eventsSince h h2 =
      [Event.new .collisionConfiguration (h.next + 1), Event.new .dispatcher (h.next + 2),
       Event.new .broadphase (h.next + 3), Event.new .solver (h.next + 4),
       Event.new .world (h.next + 5)] ++
      (if cbs = [] then [] else [Event.new .debugDrawer (h.next + 6)]) := by
    simp [eventsSince, t2, ht]
  have s3 : eventsSince h2 h3 =
      (if cbs = [] then [] else [Event.delete .debugDrawer (h.next + 6)]) ++
      [Event.delete .collisionConfiguration (h.next + 1),
       Event.delete .dispatcher (h.next + 2), Event.delete .broadphase (h.next + 3),
       Event.delete .solver (h.next + 4), Event.delete .world (h.next + 5)] := by
    by_cases hc : cbs = [] <;> simp [eventsSince, t3, hc]
  refine ⟨h2, h3, e2, e3, s2, s3, ?_, ?_, ?_, ?_⟩
  · rw [s3]
    by_cases hc : cbs = [] <;> simp +arith [hc, released]
  · rw [s3, s2]
    by_cases hc : cbs = []
    · simp [hc, released, allocated]
    · simp only [hc, if_false, released, allocated, List.cons_append, List.nil_append]
      exact (List.perm_append_comm :
        List.Perm ([h.next + 6] ++ [h.next + 1, h.next + 2, h.next + 3, h.next + 4, h.next + 5])
          ([h.next + 1, h.next + 2, h.next + 3, h.next + 4, h.next + 5] ++ [h.next + 6]))
  · rw [s3]
    by_cases hc : cbs = [] <;> simp [hc, allocated]
  · rw [s2]
    by_cases hc : cbs = [] <;> simp [hc, released]

/-- C10, amended: the five objects allocated by `cbtWorldCreate` are released by
`cbtWorldDestroy` in the very order of their allocation (configuration,
dispatcher, broadphase, solver, world), after the debug-drawer if one was
registered since. -/
theorem cbtWorldDestroy_same_order_as_create (h : Heap) (cbs : List CbtDebugDrawCallbacks) :
    ∃ h2 h3 : Heap,
      registerAll (cbtWorldCreate h).1 cbs (cbtWorldCreate h).2 = some h2 ∧
      cbtWorldDestroy (cbtWorldCreate h).1 h2 = some h3 ∧
      allocated (eventsSince h (cbtWorldCreate h).2)
        = [h.next + 1, h.next + 2, h.next + 3, h.next + 4, h.next + 5] ∧
      released (eventsSince h2 h3)
        = allocated (eventsSince (cbtWorldCreate h).2 h2)
          ++ allocated (eventsSince h (cbtWorldCreate h).2) := by
  obtain ⟨hw, hn, hl, ht⟩ := cbtWorldCreate_live h
  obtain ⟨h2, e2, l2, t2⟩ := registerAll_live (cbtWorldCreate h).2 h.next cbs hl hn
  obtain ⟨h3, e3, t3⟩ := cbtWorldDestroy_live h2 h.next _ l2
  rw [hw]
  refine ⟨h2, h3, e2, e3, ?_, ?_⟩
  · simp [eventsSince, ht, allocated]
  · by_cases hc : cbs = [] <;> simp [eventsSince, t3, t2, ht, hc, released, allocated]

/-- C10 as stated fails: on the empty heap `cbtWorldCreate` allocates addresses
1 to 5 in this order and `cbtWorldDestroy` releases them in the same order, which
is not the reverse. -/
theorem cbtWorldDestroy_order_not_reversed :
    ∃ h3 : Heap,
      cbtWorldDestroy (cbtWorldCreate Heap.empty).1 (cbtWorldCreate Heap.empty).2 = some h3 ∧
      allocated (eventsSince Heap.empty (cbtWorldCreate Heap.empty).2) = [1, 2, 3, 4, 5] ∧
      released (eventsSince (cbtWorldCreate Heap.empty).2 h3) = [1, 2, 3, 4, 5] ∧
      released (eventsSince (cbtWorldCreate Heap.empty).2 h3)
        ≠ (allocated (eventsSince Heap.empty (cbtWorldCreate Heap.empty).2)).reverse := by
  obtain ⟨hw, -, hl, ht⟩ := cbtWorldCreate_live Heap.empty
  obtain ⟨h3, e3, t3⟩ := cbtWorldDestroy_live _ _ _ hl
  rw [hw]
  have a : allocated (eventsSince Heap.empty (cbtWorldCreate Heap.empty).2) = [1, 2, 3, 4, 5] := by
    simp [eventsSince, ht, allocated, Heap.empty]
  have r : released (eventsSince (cbtWorldCreate Heap.empty).2 h3) = [1, 2, 3, 4, 5] := by
    simp [eventsSince, t3, released, Heap.empty]
  exact ⟨h3, e3, a, r, by rw [a, r]; decide⟩

end WorldTheorems

section DebugDrawTheorems

/-- A registration on a world that has a live drawer replaces the callbacks
stored in the drawer and nothing else. -/
theorem setCallbacks_existing (g : Heap) (w d : Nat) (cb0 cb : CbtDebugDrawCallbacks) (m : Int)
    (hw : w ≠ 0) (hd : getDebugDrawer g w = some d) (hd0 : d ≠ 0)
    (ho : g.objs d = some (.CbtDebugDraw cb0 m)) :
    cbtWorldDebugSetCallbacks w (some cb) g =
      some { g with objs := Function.update g.objs d (some (.CbtDebugDraw cb m)) } := by
  simp [cbtWorldDebugSetCallbacks, hw, hd, hd0, setCallbacks, ho]

/-- Any run of registrations on a world that has a live drawer keeps the drawer,
its debug mode, the trace and every other object, and ends with the callbacks of
the last call. -/
theorem registerAll_existing (n : Nat) (rest : List CbtDebugDrawCallbacks) :
    ∀ (g : Heap) (cb0 : CbtDebugDrawCallbacks) (m : Int),
      WorldLive g n (n + 6) → g.objs (n + 6) = some (.CbtDebugDraw cb0 m) →
      ∃ g1, registerAll (n + 5) rest g = some g1 ∧ WorldLive g1 n (n + 6) ∧
        g1.trace = g.trace ∧ g1.next = g.next ∧
        g1.objs (n + 6) = some (.CbtDebugDraw (lastCallbacks cb0 rest) m) ∧
        ∀ p, p ≠ n + 6 → g1.objs p = g.objs p := by
  induction rest with
  | nil => intro g cb0 m hl ho; exact ⟨g, rfl, hl, rfl, rfl, ho, fun _ _ => rfl⟩
  | cons cb rest ih =>
    intro g cb0 m hl ho
    have hd : getDebugDrawer g (n + 5) = some (n + 6) := by simp [getDebugDrawer, hl.world]
    have e := setCallbacks_existing g (n + 5) (n + 6) cb0 cb m (by omega) hd (by omega) ho
    have hl1 : WorldLive
        { g with objs := Function.update g.objs (n + 6) (some (.CbtDebugDraw cb m)) }
        n (n + 6) := by
      obtain ⟨h1, h2, h3, h4, h5, -⟩ := hl
      constructor <;> simp +arith [Function.update_apply, h1, h2, h3, h4, h5]
    obtain ⟨g1, e1, l1, t1, n1, o1, f1⟩ := ih _ cb m hl1 (by simp)
    refine ⟨g1, by simp [registerAll, e, e1], l1, t1, n1, o1, ?_⟩
    intro p hp
    rw [f1 p hp]
    simp [Function.update_apply, hp]

/-- C11: on a world fresh from `cbtWorldCreate`, the first registration creates
the one debug-drawer, installs it and stores its callbacks; after any run of
later registrations the only allocation since the world's creation is still that
drawer, the same drawer is installed, its debug mode is what it was, every
other object is untouched and the stored callbacks are those of the most recent
call.  In general, a registration on any world that has a live drawer replaces
the callbacks stored in that drawer and nothing else. -/
theorem debug_drawer_created_once (h : Heap) (first : CbtDebugDrawCallbacks)
    (rest : List CbtDebugDrawCallbacks) :
    (∃ (ha hb : Heap) (m : Int),
      cbtWorldDebugSetCallbacks (cbtWorldCreate h).1 (some first) (cbtWorldCreate h).2
        = some ha ∧
      eventsSince (cbtWorldCreate h).2 ha = [Event.new .debugDrawer (h.next + 6)] ∧
      getDebugDrawer ha (cbtWorldCreate h).1 = some (h.next + 6) ∧
      ha.objs (h.next + 6) = some (.CbtDebugDraw first m) ∧
      registerAll (cbtWorldCreate h).1 rest ha = some hb ∧
      registerAll (cbtWorldCreate h).1 (first :: rest) (cbtWorldCreate h).2 = some hb ∧
      eventsSince (cbtWorldCreate h).2 hb = [Event.new .debugDrawer (h.next + 6)] ∧
      getDebugDrawer hb (cbtWorldCreate h).1 = some (h.next + 6) ∧
      hb.objs (h.next + 6) = some (.CbtDebugDraw (lastCallbacks first rest) m) ∧
      getDebugMode hb (h.next + 6) = getDebugMode ha (h.next + 6) ∧
      hb.next = ha.next ∧
      ∀ p, p ≠ h.next + 6 → hb.objs p = ha.objs p) ∧
    (∀ (g : Heap) (w d : Nat) (cb0 cb : CbtDebugDrawCallbacks) (m : Int),
      w ≠ 0 → getDebugDrawer g w = some d → d ≠ 0 →
      g.objs d = some (.CbtDebugDraw cb0 m) →
      cbtWorldDebugSetCallbacks w (some cb) g =
        some { g with objs := Function.update g.objs d (some (.CbtDebugDraw cb m)) }) := by
  refine ⟨?_, fun g w d cb0 cb m hw hd hd0 ho => setCallbacks_existing g w d cb0 cb m hw hd hd0 ho⟩
  obtain ⟨hw, hn, hl, -⟩ := cbtWorldCreate_live h
  obtain ⟨ha, ea, la, ta, oa⟩ := register_first (cbtWorldCreate h).2 h.next first hl hn
  obtain ⟨hb, eb, lb, tb, nb, ob, fb⟩ := registerAll_existing h.next rest ha first _ la oa
  rw [hw]
  refine ⟨ha, hb, _, ea, ?_, ?_, oa, eb, ?_, ?_, ?_, ob, ?_, nb, fb⟩
  · simp [eventsSince, ta]
  · simp [getDebugDrawer, la.world]
  · simp [registerAll, ea, eb]
  · simp [eventsSince, tb, ta]
  · simp [getDebugDrawer, lb.world]
  · simp [getDebugMode, ob, oa]

/-- Witness for C11 on the empty heap: after registering the sample callbacks
and then the other callbacks, one drawer has been allocated, at address 6, and
it stores the other callbacks. -/
theorem debug_drawer_created_once_witness :
    ∃ hb : Heap,
      registerAll (cbtWorldCreate Heap.empty).1 [sampleCallbacks, otherCallbacks]
        (cbtWorldCreate Heap.empty).2 = some hb ∧
      eventsSince (cbtWorldCreate Heap.empty).2 hb = [Event.new .debugDrawer 6] ∧
      getDebugDrawer hb (cbtWorldCreate Heap.empty).1 = some 6 ∧
      ∃ m, hb.objs 6 = some (.CbtDebugDraw otherCallbacks m) := by
  obtain ⟨⟨ha, hb, m, -, -, -, -, -, e, t, d, o, -⟩, -⟩ :=
    debug_drawer_created_once Heap.empty sampleCallbacks [otherCallbacks]
  exact ⟨hb, e, t, d, m, o⟩

/-- C12: the drawer created by the first registration has as debug mode the
bitwise OR of the wireframe, frames, contact-points and constraints flags, so a
bit of the mode is set exactly when it is set in one of the four flags; and on
any drawer `getDebugMode` returns the value last given to `setDebugMode`. -/
theorem debug_mode_default_and_roundtrip (h : Heap) (cb : CbtDebugDrawCallbacks) :
    (∃ ha : Heap,
      cbtWorldDebugSetCallbacks (cbtWorldCreate h).1 (some cb) (cbtWorldCreate h).2 = some ha ∧
      getDebugDrawer ha (cbtWorldCreate h).1 = some (h.next + 6) ∧
      getDebugMode ha (h.next + 6) =
        some (Int.lor (Int.lor (Int.lor DBG_DrawWireframe DBG_DrawFrames) DBG_DrawContactPoints)
          DBG_DrawConstraints)) ∧
    (∀ i : Nat,
      (Int.lor (Int.lor (Int.lor DBG_DrawWireframe DBG_DrawFrames) DBG_DrawContactPoints)
          DBG_DrawConstraints).testBit i = true ↔
        (DBG_DrawWireframe.testBit i = true ∨ DBG_DrawFrames.testBit i = true ∨
         DBG_DrawContactPoints.testBit i = true ∨ DBG_DrawConstraints.testBit i = true)) ∧
    (∀ (g : Heap) (d : Nat) (cbk : CbtDebugDrawCallbacks) (m v : Int),
      g.objs d = some (.CbtDebugDraw cbk m) →
      ∃ g1, setDebugMode g d v = some g1 ∧ getDebugMode g1 d = some v ∧
        g1.objs d = some (.CbtDebugDraw cbk v)) ∧
    (∀ (g : Heap) (d : Nat) (cbk : CbtDebugDrawCallbacks) (m v1 v2 : Int),
      g.objs d = some (.CbtDebugDraw cbk m) →
      (setDebugMode g d v1).bind
        (fun g1 => (setDebugMode g1 d v2).bind (fun g2 => getDebugMode g2 d)) = some v2) := by
  refine ⟨?_, ?_, ?_, ?_⟩
  · obtain ⟨hw, hn, hl, -⟩ := cbtWorldCreate_live h
    obtain ⟨ha, ea, la, -, oa⟩ := register_first (cbtWorldCreate h).2 h.next cb hl hn
    rw [hw]
    exact ⟨ha, ea, by simp [getDebugDrawer, la.world], by simp [getDebugMode, oa]⟩
  · intro i
    simp only [Int.testBit_lor, Bool.or_eq_true]
    tauto
  · intro g d cbk m v ho
    refine ⟨{ g with objs := Function.update g.objs d (some (.CbtDebugDraw cbk v)) }, ?_, ?_, ?_⟩
    · simp only [setDebugMode, ho]
    · simp [getDebugMode]
    · simp
  · intro g d cbk m v1 v2 ho
    simp [setDebugMode, ho, getDebugMode]

/-- Witness for C12 on the empty heap: the drawer of the first registration is at
address 6, and after `setDebugMode` with -7 and then with 3 on it `getDebugMode`
returns 3. -/
theorem debug_mode_default_and_roundtrip_witness :
    ∃ ha : Heap,
      cbtWorldDebugSetCallbacks (cbtWorldCreate Heap.empty).1 (some sampleCallbacks)
        (cbtWorldCreate Heap.empty).2 = some ha ∧
      getDebugMode ha 6 = some 34825 ∧
      (setDebugMode ha 6 (-7)).bind
        (fun g1 => (setDebugMode g1 6 3).bind (fun g2 => getDebugMode g2 6)) = some 3 := by
  obtain ⟨⟨ha, e, -, hm⟩, -, -, hrt⟩ :=
    debug_mode_default_and_roundtrip Heap.empty sampleCallbacks
  have hm6 : getDebugMode ha 6 = some 34825 := hm
  refine ⟨ha, e, hm6, ?_⟩
  cases ho : ha.objs 6 with
  | none => simp [getDebugMode, ho] at hm6
  | some o =>
    cases o with
    | CbtDebugDraw cbk m => exact hrt ha 6 cbk m (-7) 3 ho
    | _ => simp [getDebugMode, ho] at hm6

end DebugDrawTheorems

section UserDataTheorems

variable {α : Type}

/-- C13: on a body, setting user-index slot `s` (0, 1 or 2) to `v` makes the
getter of slot `s` return `v` and leaves the getter of every other valid slot
`s2` and the user pointer as they were; on a shape the same holds with slots 0
and 1.  With a slot outside the valid range setter and getter both fail their
assertion. -/
theorem user_index_slots_independent (b : btRigidBody α) (sh : btCollisionShape α)
    (s s2 v : Int) :
    ((0 ≤ s ∧ s ≤ 2) →
      ∃ b1, cbtBodySetUserIndex (some b) s v = some b1 ∧
        cbtBodyGetUserIndex (some b1) s = some v ∧
        ((0 ≤ s2 ∧ s2 ≤ 2) → s2 ≠ s →
          cbtBodyGetUserIndex (some b1) s2 = cbtBodyGetUserIndex (some b) s2) ∧
        cbtBodyGetUserPointer (some b1) = cbtBodyGetUserPointer (some b)) ∧
    (¬ (0 ≤ s ∧ s ≤ 2) →
      cbtBodySetUserIndex (some b) s v = none ∧ cbtBodyGetUserIndex (some b) s = none) ∧
    ((s = 0 ∨ s = 1) →
      ∃ sh1, cbtShapeSetUserIndex (some sh) s v = some sh1 ∧
        cbtShapeGetUserIndex (some sh1) s = some v ∧
        ((s2 = 0 ∨ s2 = 1) → s2 ≠ s →
          cbtShapeGetUserIndex (some sh1) s2 = cbtShapeGetUserIndex (some sh) s2) ∧
        cbtShapeGetUserPointer (some sh1) = cbtShapeGetUserPointer (some sh)) ∧
    (¬ (s = 0 ∨ s = 1) →
      cbtShapeSetUserIndex (some sh) s v = none ∧ cbtShapeGetUserIndex (some sh) s = none) := by
  refine ⟨?_, ?_, ?_, ?_⟩
  · intro hs
    have h3 : s = 0 ∨ s = 1 ∨ s = 2 := by omega
    rcases h3 with rfl | rfl | rfl
    · refine ⟨{ b with m_userIndex := v }, by simp [cbtBodySetUserIndex],
        by simp [cbtBodyGetUserIndex], ?_, rfl⟩
      intro hs2 hne
      have h2 : s2 = 1 ∨ s2 = 2 := by omega
      rcases h2 with rfl | rfl <;> simp [cbtBodyGetUserIndex]
    · refine ⟨{ b with m_userIndex2 := v }, by simp [cbtBodySetUserIndex],
        by simp [cbtBodyGetUserIndex], ?_, rfl⟩
      intro hs2 hne
      have h2 : s2 = 0 ∨ s2 = 2 := by omega
      rcases h2 with rfl | rfl <;> simp [cbtBodyGetUserIndex]
    · refine ⟨{ b with m_userIndex3 := v }, by simp [cbtBodySetUserIndex],
        by simp [cbtBodyGetUserIndex], ?_, rfl⟩
      intro hs2 hne
      have h2 : s2 = 0 ∨ s2 = 1 := by omega
      rcases h2 with rfl | rfl <;> simp [cbtBodyGetUserIndex]
  · intro hs
    simp [cbtBodySetUserIndex, cbtBodyGetUserIndex, hs]
  · intro hs
    rcases hs with rfl | rfl
    · refine ⟨{ sh with m_userIndex := v }, by simp [cbtShapeSetUserIndex],
        by simp [cbtShapeGetUserIndex], ?_, rfl⟩
      intro hs2 hne
      have h2 : s2 = 1 := by omega
      subst h2
      simp [cbtShapeGetUserIndex]
    · refine ⟨{ sh with m_userIndex2 := v }, by simp [cbtShapeSetUserIndex],
        by simp [cbtShapeGetUserIndex], ?_, rfl⟩
      intro hs2 hne
      have h2 : s2 = 0 := by omega
      subst h2
      simp [cbtShapeGetUserIndex]
  · intro hs
    simp [cbtShapeSetUserIndex, cbtShapeGetUserIndex, hs]

/-- Witness for C13 on the sample body and shape: slot 1 set to 42 reads back
42 while slot 2 of the body and slot 0 of the shape keep their value, and slot 3
is refused. -/
theorem user_index_slots_independent_witness :
    (∃ b1, cbtBodySetUserIndex (some sampleBody) 1 42 = some b1 ∧
      cbtBodyGetUserIndex (some b1) 1 = some 42 ∧
      cbtBodyGetUserIndex (some b1) 2 = cbtBodyGetUserIndex (some sampleBody) 2) ∧
    (∃ sh1, cbtShapeSetUserIndex (some sampleShape) 1 42 = some sh1 ∧
      cbtShapeGetUserIndex (some sh1) 1 = some 42 ∧
      cbtShapeGetUserIndex (some sh1) 0 = cbtShapeGetUserIndex (some sampleShape) 0) ∧
    cbtBodySetUserIndex (some sampleBody) 3 42 = none ∧
    cbtShapeGetUserIndex (some sampleShape) 2 = none := by
  obtain ⟨hb, -, -, -⟩ := user_index_slots_independent sampleBody sampleShape 1 2 42
  obtain ⟨-, -, hs, -⟩ := user_index_slots_independent sampleBody sampleShape 1 0 42
  obtain ⟨-, hb3, -, -⟩ := user_index_slots_independent sampleBody sampleShape 3 0 42
  obtain ⟨-, -, -, hs2⟩ := user_index_slots_independent sampleBody sampleShape 2 0 42
  obtain ⟨b1, e1, g1, f1, -⟩ := hb (by decide)
  obtain ⟨sh1, e2, g2, f2, -⟩ := hs (by decide)
  exact ⟨⟨b1, e1, g1, f1 (by decide) (by decide)⟩, ⟨sh1, e2, g2, f2 (by decide) (by decide)⟩,
    (hb3 (by decide)).1, (hs2 (by decide)).2⟩

end UserDataTheorems

section ConstraintTheorems

variable {α : Type}

/-- C14: each of the five point-to-point mutators fails on the null handle and
on a constraint whose type is not point-to-point; on a point-to-point constraint
it succeeds, sets its own parameter to the given value and leaves the other
four parameters and the type as they were. -/
theorem point2point_mutators_frame (con : btTypedConstraint α) (pivot : CbtVector3 α) (x : α) :
    (cbtConPoint2PointSetPivotA (none : CbtConstraintHandle α) pivot = none ∧
     cbtConPoint2PointSetPivotB (none : CbtConstraintHandle α) pivot = none ∧
     cbtConPoint2PointSetTau (none : CbtConstraintHandle α) x = none ∧
     cbtConPoint2PointSetDamping (none : CbtConstraintHandle α) x = none ∧
     cbtConPoint2PointSetImpulseClamp (none : CbtConstraintHandle α) x = none) ∧
    (con.getConstraintType ≠ .POINT2POINT_CONSTRAINT_TYPE →
      cbtConPoint2PointSetPivotA (some con) pivot = none ∧
      cbtConPoint2PointSetPivotB (some con) pivot = none ∧
      cbtConPoint2PointSetTau (some con) x = none ∧
      cbtConPoint2PointSetDamping (some con) x = none ∧
      cbtConPoint2PointSetImpulseClamp (some con) x = none) ∧
    (con.getConstraintType = .POINT2POINT_CONSTRAINT_TYPE →
      (∃ c, cbtConPoint2PointSetPivotA (some con) pivot = some c ∧
        c.m_pivotInA = ⟨pivot 0, pivot 1, pivot 2⟩ ∧ c.m_pivotInB = con.m_pivotInB ∧
        c.m_setting = con.m_setting ∧ c.m_constraintType = con.m_constraintType) ∧
      (∃ c, cbtConPoint2PointSetPivotB (some con) pivot = some c ∧
        c.m_pivotInB = ⟨pivot 0, pivot 1, pivot 2⟩ ∧ c.m_pivotInA = con.m_pivotInA ∧
        c.m_setting = con.m_setting ∧ c.m_constraintType = con.m_constraintType) ∧
      (∃ c, cbtConPoint2PointSetTau (some con) x = some c ∧
        c.m_setting.m_tau = x ∧ c.m_setting.m_damping = con.m_setting.m_damping ∧
        c.m_setting.m_impulseClamp = con.m_setting.m_impulseClamp ∧
        c.m_pivotInA = con.m_pivotInA ∧ c.m_pivotInB = con.m_pivotInB ∧
        c.m_constraintType = con.m_constraintType) ∧
      (∃ c, cbtConPoint2PointSetDamping (some con) x = some c ∧
        c.m_setting.m_damping = x ∧ c.m_setting.m_tau = con.m_setting.m_tau ∧
        c.m_setting.m_impulseClamp = con.m_setting.m_impulseClamp ∧
        c.m_pivotInA = con.m_pivotInA ∧ c.m_pivotInB = con.m_pivotInB ∧
        c.m_constraintType = con.m_constraintType) ∧
      (∃ c, cbtConPoint2PointSetImpulseClamp (some con) x = some c ∧
        c.m_setting.m_impulseClamp = x ∧ c.m_setting.m_tau = con.m_setting.m_tau ∧
        c.m_setting.m_damping = con.m_setting.m_damping ∧
        c.m_pivotInA = con.m_pivotInA ∧ c.m_pivotInB = con.m_pivotInB ∧
        c.m_constraintType = con.m_constraintType)) := by
  refine ⟨⟨rfl, rfl, rfl, rfl, rfl⟩, ?_, ?_⟩
  · intro hne
    simp [cbtConPoint2PointSetPivotA, cbtConPoint2PointSetPivotB, cbtConPoint2PointSetTau,
      cbtConPoint2PointSetDamping, cbtConPoint2PointSetImpulseClamp, hne]
  · intro heq
    refine ⟨⟨con.setPivotA ⟨pivot 0, pivot 1, pivot 2⟩,
        by simp only [cbtConPoint2PointSetPivotA, heq, if_true], rfl, rfl, rfl, rfl⟩,
      ⟨con.setPivotB ⟨pivot 0, pivot 1, pivot 2⟩,
        by simp only [cbtConPoint2PointSetPivotB, heq, if_true], rfl, rfl, rfl, rfl⟩,
      ⟨{ con with m_setting := { con.m_setting with m_tau := x } },
        by simp only [cbtConPoint2PointSetTau, heq, if_true], rfl, rfl, rfl, rfl, rfl, rfl⟩,
      ⟨{ con with m_setting := { con.m_setting with m_damping := x } },
        by simp only [cbtConPoint2PointSetDamping, heq, if_true], rfl, rfl, rfl, rfl, rfl, rfl⟩,
      ⟨{ con with m_setting := { con.m_setting with m_impulseClamp := x } },
        by simp only [cbtConPoint2PointSetImpulseClamp, heq, if_true], rfl, rfl, rfl, rfl, rfl,
        rfl⟩⟩

/-- Witness for C14: the hinge is refused by `cbtConPoint2PointSetTau`; on the
sample point-to-point constraint the damping becomes 20 and the tau stays 7. -/
theorem point2point_mutators_frame_witness :
    cbtConPoint2PointSetTau (some hingeConstraint) 20 = none ∧
    ∃ c, cbtConPoint2PointSetDamping (some sampleConstraint) 20 = some c ∧
      c.m_setting.m_damping = 20 ∧ c.m_setting.m_tau = 7 := by
  obtain ⟨-, hh, -⟩ := point2point_mutators_frame hingeConstraint ![0, 0, 0] 20
  obtain ⟨-, -, hp⟩ := point2point_mutators_frame sampleConstraint ![0, 0, 0] 20
  obtain ⟨-, -, -, ⟨c, e, d, t, -⟩, -⟩ := hp rfl
  exact ⟨(hh (by decide)).2.2.1, c, e, d, t⟩

end ConstraintTheorems

section RayTheorems

variable {α : Type} [LinearOrderedCommRing α]

/-- What `cbtRayTestClosest` returns on a non-null handle, in terms of the
callback the engine's query leaves behind. -/
theorem cbtRayTestClosest_eq
    (rayTest : Nat → btVector3 α → btVector3 α → ClosestRayResultCallback α →
      ClosestRayResultCallback α)
    (indeterminate : btVector3 α) (handle : Nat) (hh : handle ≠ 0)
    (ray_from_world ray_to_world : CbtVector3 α)
    (collision_filter_group collision_filter_mask : Int) (flags : Nat)
    (result : Option (CbtRayCastResult α)) (closest : ClosestRayResultCallback α)
    (hc : closest = rayTest handle ⟨ray_from_world 0, ray_from_world 1, ray_from_world 2⟩
        ⟨ray_to_world 0, ray_to_world 1, ray_to_world 2⟩
        (closestConfigured indeterminate ray_from_world ray_to_world collision_filter_group
          collision_filter_mask flags)) :
    cbtRayTestClosest rayTest indeterminate handle ray_from_world ray_to_world
        collision_filter_group collision_filter_mask flags result
      = some (if closest.m_collisionObject.isSome then CBT_TRUE else CBT_FALSE,
          result.map fun _ =>
            { hit_normal_world :=
                ![closest.m_hitNormalWorld.x, closest.m_hitNormalWorld.y,
                  closest.m_hitNormalWorld.z]
              hit_point_world :=
                ![closest.m_hitPointWorld.x, closest.m_hitPointWorld.y,
                  closest.m_hitPointWorld.z]
              hit_fraction := closest.m_closestHitFraction
              body := closest.m_collisionObject }) := by
  subst hc
  simp only [cbtRayTestClosest, hh, if_false]

/-- C15: on a non-null world handle `cbtRayTestClosest` hands the engine the
caller's two endpoints and a callback configured with exactly the caller's
group, mask and flags; it returns true exactly when the callback the query
leaves behind holds a hit object; and a supplied record is filled with that
callback's hit normal, hit point, hit fraction and hit object, so that the
returned boolean is true exactly when the body written to the record is
non-null. -/
theorem cbtRayTestClosest_reports_engine_hit
    (rayTest : Nat → btVector3 α → btVector3 α → ClosestRayResultCallback α →
      ClosestRayResultCallback α)
    (indeterminate : btVector3 α) (handle : Nat) (hh : handle ≠ 0)
    (ray_from_world ray_to_world : CbtVector3 α)
    (collision_filter_group collision_filter_mask : Int) (flags : Nat)
    (r0 : CbtRayCastResult α) :
    ∃ (query closest : ClosestRayResultCallback α),
      query = closestConfigured indeterminate ray_from_world ray_to_world
        collision_filter_group collision_filter_mask flags ∧
      query.m_rayFromWorld = ⟨ray_from_world 0, ray_from_world 1, ray_from_world 2⟩ ∧
      query.m_rayToWorld = ⟨ray_to_world 0, ray_to_world 1, ray_to_world 2⟩ ∧
      query.m_collisionFilterGroup = collision_filter_group ∧
      query.m_collisionFilterMask = collision_filter_mask ∧
      query.m_flags = flags ∧
      closest = rayTest handle ⟨ray_from_world 0, ray_from_world 1, ray_from_world 2⟩
        ⟨ray_to_world 0, ray_to_world 1, ray_to_world 2⟩ query ∧
      (∃ b : Int,
        cbtRayTestClosest rayTest indeterminate handle ray_from_world ray_to_world
          collision_filter_group collision_filter_mask flags none = some (b, none) ∧
        (b = CBT_TRUE ↔ closest.m_collisionObject ≠ none) ∧
        (b = CBT_FALSE ↔ closest.m_collisionObject = none)) ∧
      (∃ (b : Int) (record : CbtRayCastResult α),
        cbtRayTestClosest rayTest indeterminate handle ray_from_world ray_to_world
          collision_filter_group collision_filter_mask flags (some r0)
          = some (b, some record) ∧
        (∀ c : Fin 3, record.hit_normal_world c = closest.m_hitNormalWorld.get c) ∧
        (∀ c : Fin 3, record.hit_point_world c = closest.m_hitPointWorld.get c) ∧
        record.hit_fraction = closest.m_closestHitFraction ∧
        record.body = closest.m_collisionObject ∧
        (b = CBT_TRUE ↔ closest.m_collisionObject ≠ none) ∧
        (b = CBT_TRUE ↔ record.body ≠ none) ∧
        (b = CBT_FALSE ↔ record.body = none)) := by
  refine ⟨_, rayTest handle ⟨ray_from_world 0, ray_from_world 1, ray_from_world 2⟩
    ⟨ray_to_world 0, ray_to_world 1, ray_to_world 2⟩
    (closestConfigured indeterminate ray_from_world ray_to_world collision_filter_group
      collision_filter_mask flags), rfl, rfl, rfl, rfl, rfl, rfl, rfl, ?_, ?_⟩
  · refine ⟨_, cbtRayTestClosest_eq rayTest indeterminate handle hh ray_from_world ray_to_world
      collision_filter_group collision_filter_mask flags none _ rfl, ?_, ?_⟩ <;>
    cases (rayTest handle ⟨ray_from_world 0, ray_from_world 1, ray_from_world 2⟩
        ⟨ray_to_world 0, ray_to_world 1, ray_to_world 2⟩
        (closestConfigured indeterminate ray_from_world ray_to_world collision_filter_group
          collision_filter_mask flags)).m_collisionObject <;>
    simp [CBT_TRUE, CBT_FALSE]
  · refine ⟨_, _, cbtRayTestClosest_eq rayTest indeterminate handle hh ray_from_world
      ray_to_world collision_filter_group collision_filter_mask flags (some r0) _ rfl,
      ?_, ?_, rfl, rfl, ?_, ?_, ?_⟩
    · intro c; fin_cases c <;> rfl
    · intro c; fin_cases c <;> rfl
    all_goals
      cases (rayTest handle ⟨ray_from_world 0, ray_from_world 1, ray_from_world 2⟩
        ⟨ray_to_world 0, ray_to_world 1, ray_to_world 2⟩
        (closestConfigured indeterminate ray_from_world ray_to_world collision_filter_group
          collision_filter_mask flags)).m_collisionObject <;>
      simp [CBT_TRUE, CBT_FALSE]

/-- Witness for C15 with the stand-in engine on world handle 5: with mask -1 the
sample body is hit and the record names it; with mask 0 nothing is hit, the
result is false and the record's body is null. -/
theorem cbtRayTestClosest_reports_engine_hit_witness :
    (∃ record : CbtRayCastResult Int,
      cbtRayTestClosest sampleRayTest ⟨0, 0, 0⟩ 5 ![0, 10, 0] ![0, -10, 0] 1 (-1) 0
        (some ⟨![0, 0, 0], ![0, 0, 0], 0, none⟩) = some (CBT_TRUE, some record) ∧
      record.body = some sampleBody ∧ record.hit_point_world 1 = 10) ∧
    (∃ record : CbtRayCastResult Int,
      cbtRayTestClosest sampleRayTest ⟨0, 0, 0⟩ 5 ![0, 10, 0] ![0, -10, 0] 1 0 0
        (some ⟨![0, 0, 0], ![0, 0, 0], 0, none⟩) = some (CBT_FALSE, some record) ∧
      record.body = none) := by
  obtain ⟨q1, c1, hq1, -, -, -, -, -, hc1, -, b1, r1, e1, -, hp1, -, hb1, ht1, -, -⟩ :=
    cbtRayTestClosest_reports_engine_hit sampleRayTest ⟨0, 0, 0⟩ 5 (by decide)
      ![0, 10, 0] ![0, -10, 0] 1 (-1) 0 ⟨![0, 0, 0], ![0, 0, 0], 0, none⟩
  obtain ⟨q2, c2, hq2, -, -, -, -, -, hc2, -, b2, r2, e2, -, -, -, hb2, -, -, hf2⟩ :=
    cbtRayTestClosest_reports_engine_hit sampleRayTest ⟨0, 0, 0⟩ 5 (by decide)
      ![0, 10, 0] ![0, -10, 0] 1 0 0 ⟨![0, 0, 0], ![0, 0, 0], 0, none⟩
  subst hq1 hq2
  have o1 : c1.m_collisionObject = some sampleBody := by rw [hc1]; rfl
  have p1 : c1.m_hitPointWorld.get 1 = 10 := by rw [hc1]; rfl
  have o2 : c2.m_collisionObject = none := by rw [hc2]; rfl
  have t1 : b1 = CBT_TRUE := ht1.mpr (by rw [o1]; simp)
  have f2 : b2 = CBT_FALSE := hf2.mpr (by rw [hb2, o2])
  subst t1 f2
  exact ⟨⟨r1, e1, by rw [hb1, o1], by rw [hp1 1, p1]⟩, ⟨r2, e2, by rw [hb2, o2]⟩⟩

end RayTheorems

section PositionTheorems

variable {α : Type}

/-- C16: for every body the vector written by `cbtBodyGetCenterOfMassPosition`
is row 3 of the array written by `cbtBodyGetCenterOfMassTransform` for the same
body state, and after `cbtBodySetCenterOfMassTransform(b, T)` it is row 3 of
`T`, whatever the basis rows of `T` are. -/
theorem centerOfMassPosition_is_translation_row (b : btRigidBody α) (T : CbtTransform α) :
    (∃ (position : CbtVector3 α) (E : CbtTransform α),
      cbtBodyGetCenterOfMassPosition (some b) = some position ∧
      cbtBodyGetCenterOfMassTransform (some b) = some E ∧
      position = E 3) ∧
    (cbtBodySetCenterOfMassTransform (some b) T).bind
      (fun b1 => cbtBodyGetCenterOfMassPosition (some b1)) = some (T 3) ∧
    (∀ T2 : CbtTransform α, T2 3 = T 3 →
      (cbtBodySetCenterOfMassTransform (some b) T2).bind
          (fun b1 => cbtBodyGetCenterOfMassPosition (some b1))
        = (cbtBodySetCenterOfMassTransform (some b) T).bind
          (fun b1 => cbtBodyGetCenterOfMassPosition (some b1))) := by
  have hset : ∀ U : CbtTransform α,
      (cbtBodySetCenterOfMassTransform (some b) U).bind
        (fun b1 => cbtBodyGetCenterOfMassPosition (some b1)) = some (U 3) := by
    intro U
    simp only [cbtBodySetCenterOfMassTransform, Option.some_bind,
      cbtBodyGetCenterOfMassPosition, Option.some.injEq]
    funext j
    fin_cases j <;> rfl
  refine ⟨⟨_, _, rfl, rfl, ?_⟩, hset T, ?_⟩
  · funext j
    fin_cases j <;> rfl
  · intro T2 h2
    rw [hset T2, hset T, h2]

/-- Witness for C16: after the sample body is given the sample transform and
after it is given the quarter-turn basis with the same translation row, the
position is (10, 11, 12) in both cases. -/
theorem centerOfMassPosition_is_translation_row_witness :
    (cbtBodySetCenterOfMassTransform (some sampleBody) sampleTransform).bind
      (fun b1 => cbtBodyGetCenterOfMassPosition (some b1)) = some ![10, 11, 12] ∧
    (cbtBodySetCenterOfMassTransform (some sampleBody)
        ![![0, 1, 0], ![-1, 0, 0], ![0, 0, 1], ![10, 11, 12]]).bind
      (fun b1 => cbtBodyGetCenterOfMassPosition (some b1)) = some ![10, 11, 12] := by
  obtain ⟨-, h1, h2⟩ := centerOfMassPosition_is_translation_row sampleBody sampleTransform
  refine ⟨h1, ?_⟩
  rw [h2 ![![0, 1, 0], ![-1, 0, 0], ![0, 0, 1], ![10, 11, 12]] rfl]
  exact h1

end PositionTheorems

end CBullet
